import Mathlib

/-!
Verification development for the tikz2svg conversion core.

The definitions below are a shallow embedding of the Python sources:
  - `tikz2svg/evaluator/context.py`   (EvaluationContext)
  - `tikz2svg/evaluator/math_eval.py` (MathEvaluator)
  - `tikz2svg/svg/geometry.py`        (CoordinateTransformer)
  - `tikz2svg/svg/coordinate_resolver.py` (CoordinateResolver)
  - `tikz2svg/svg/path_renderer.py`   (PathRenderer)
  - `tikz2svg/svg/loop_expander.py`   (ForeachLoopExpander)
  - `tikz2svg/svg/converter.py`       (SVGConverter)
  - `tikz2svg/parser/parser.py`       (foreach value-list expansion)

Numbers are modelled by rationals (the Python code computes with IEEE
floats; every concrete input used in the theorems below is exactly
representable, so the rational and float computations agree).  The two
trigonometric functions used by the geometry (degree cosine and sine,
i.e. `math.cos(math.radians _)` and `math.sin(math.radians _)`) are
transcendental and are passed as an explicit parameter `Trig`;
theorems either hold for every choice of `Trig` or instantiate it at
angles where degree cosine/sine take rational values.
-/

namespace TikzToSvg

/-- Python runtime value as it occurs in coordinate values, option maps,
loop value lists and evaluation-context variables:  a float/int, a
string, a bool, a tuple of strings (the parser's paired foreach values
are tuples of raw strings), or the parser's range-fallback dict. -/
inductive PyVal where
  | num (q : ℚ)
  | str (s : String)
  | pybool (b : Bool)
  | tuple (elems : List String)
  | rangeDict (start stop : String) (step : ℚ)
deriving DecidableEq

/-- Truth of `isinstance(value, (tuple, list))` for a `PyVal`. -/
def PyVal.isSeq : PyVal → Bool
  | .tuple _ => true
  | _ => false

/-- Character classes used by the Python lexical helpers. -/
def isIdentStart (c : Char) : Bool := c.isAlpha || c = '_'

def isIdentCont (c : Char) : Bool := c.isAlphanum || c = '_'

/-- Whitespace stripping of `str.strip()`, over an explicit char list. -/
def trimChars (cs : List Char) : List Char :=
  ((cs.dropWhile Char.isWhitespace).reverse.dropWhile Char.isWhitespace).reverse

/-- Python `str.strip()`. -/
def pyStrip (s : String) : String := String.mk (trimChars s.toList)

/-- Numeric value of a digit list (most significant first). -/
def digitsVal (cs : List Char) : ℕ :=
  cs.foldl (fun a c => 10 * a + (c.toNat - 48)) 0

/-- Length bound used for termination of the scanning functions. -/
theorem length_dropWhile_le {α : Type} (p : α → Bool) (l : List α) :
    (l.dropWhile p).length ≤ l.length := by
  induction l with
  | nil => simp
  | cons a t ih =>
    by_cases h : p a
    · simp only [List.dropWhile_cons, h, if_true, List.length_cons]
      omega
    · simp [List.dropWhile_cons, h]

/-- Fractional-part scan shared by the number lexers: consume an
optional decimal point followed by digits, returning the digits and
the remaining characters. -/
def splitFrac (l : List Char) : List Char × List Char :=
  if l.headD ' ' = '.' then (l.tail.takeWhile Char.isDigit, l.tail.dropWhile Char.isDigit)
  else ([], l)

theorem splitFrac_snd_le (l : List Char) : (splitFrac l).2.length ≤ l.length := by
  unfold splitFrac
  split
  · have h := length_dropWhile_le Char.isDigit l.tail
    have h2 : l.tail.length ≤ l.length := by
      cases l <;> simp
    dsimp only
    omega
  · simp

/-- Embedding of Python `float(s)` on decimal literals: optional
whitespace, optional sign, digits with optional fractional part and
optional decimal exponent.  Returns `none` where Python raises
`ValueError`.  (The special forms `inf`/`nan` are not modelled; no
claim involves them.) -/
def parseFloat (s : String) : Option ℚ :=
  let cs := trimChars s.toList
  let sgn : ℚ := if cs.headD ' ' = '-' then -1 else 1
  let cs1 := if cs.headD ' ' = '+' || cs.headD ' ' = '-' then cs.tail else cs
  let intDigits := cs1.takeWhile Char.isDigit
  let rest := cs1.dropWhile Char.isDigit
  let hasDot := rest.headD ' ' = '.'
  let fracDigits := if hasDot then rest.tail.takeWhile Char.isDigit else []
  let rest2 := if hasDot then rest.tail.dropWhile Char.isDigit else rest
  if intDigits.isEmpty && fracDigits.isEmpty then none
  else
    let mantissa : ℚ :=
      (digitsVal intDigits : ℚ) + (digitsVal fracDigits : ℚ) / ((10 : ℚ) ^ fracDigits.length)
    if rest2.isEmpty then some (sgn * mantissa)
    else if rest2.headD ' ' = 'e' || rest2.headD ' ' = 'E' then
      let r := rest2.tail
      let esgn : ℤ := if r.headD ' ' = '-' then -1 else 1
      let r2 := if r.headD ' ' = '+' || r.headD ' ' = '-' then r.tail else r
      let eDigits := r2.takeWhile Char.isDigit
      let r3 := r2.dropWhile Char.isDigit
      if eDigits.isEmpty || !r3.isEmpty then none
      else some (sgn * mantissa * (10 : ℚ) ^ (esgn * (digitsVal eDigits : ℤ)))
    else none

/-- Evaluation context (`context.py`): a mutable variable map with an
optional parent link.  Modelled as an immutable value; the Python code
only ever writes to the innermost context (`set_variable` targets
`self`), so functional update of the head of the chain is an exact
model of the imperative behaviour. -/
inductive EvaluationContext where
  | mk (vars : List (String × PyVal)) (parent : Option EvaluationContext)

namespace EvaluationContext

/-- Local variable map (`self.variables`) of the innermost scope. -/
def vars : EvaluationContext → List (String × PyVal)
  | .mk v _ => v

/-- Parent link. -/
def parent : EvaluationContext → Option EvaluationContext
  | .mk _ p => p

/-- Name normalization shared by `set_variable` and `get_variable`:
strip a single leading backslash (`name.startswith`/`name[1:]`,
expressed over the character list). -/
def normalizeName (name : String) : String :=
  if name.toList.headD ' ' = '\\' then String.mk name.toList.tail else name

/-- Transcription of `EvaluationContext.set_variable`: writes always
target the innermost scope.  The most recent entry is kept at the head
of the association list (dict overwrite = shadowing at lookup). -/
def set_variable (ctx : EvaluationContext) (name : String) (value : PyVal) :
    EvaluationContext :=
  match ctx with
  | .mk vars p => .mk ((normalizeName name, value) :: vars) p

/-- Transcription of `EvaluationContext.get_variable`: normalize the
name, look in the current scope, then walk the parent chain (the
Python code passes the already-stripped name to the parent). -/
def get_variable (ctx : EvaluationContext) (name : String) : Option PyVal :=
  let n := normalizeName name
  match ctx with
  | .mk vars p =>
    match vars.lookup n with
    | some v => some v
    | none =>
      match p with
      | some pc => pc.get_variable n
      | none => none

/-- Transcription of `EvaluationContext.has_variable`. -/
def has_variable (ctx : EvaluationContext) (name : String) : Bool :=
  (ctx.get_variable name).isSome

/-- Transcription of `EvaluationContext.create_child_context`. -/
def create_child_context (ctx : EvaluationContext) : EvaluationContext :=
  .mk [] (some ctx)

/-- Root context with no variables, as built by `EvaluationContext()`. -/
def root : EvaluationContext := .mk [] none

end EvaluationContext

/-- String form `str(value)` used when substituting a variable's value
into an expression.  Python prints floats with a decimal point; the
fractional expansion is cut off after 15 digits (Python's repr of the
underlying float differs only for values none of the claims use). -/
def decimalDigits : ℕ → ℚ → List Char
  | 0, _ => []
  | fuel + 1, q =>
    if q = 0 then []
    else
      let d : ℕ := (10 * q).floor.toNat
      (Char.ofNat (48 + d)) :: decimalDigits fuel (10 * q - (d : ℚ))

/-- Decimal rendering of a nonnegative rational, Python-float style. -/
def ratToDecimal (q : ℚ) : String :=
  let sign := if q < 0 then "-" else ""
  let aq := |q|
  let ip : ℕ := aq.floor.toNat
  let frac := aq - (ip : ℚ)
  let fracChars := decimalDigits 15 frac
  let fracStr := if fracChars.isEmpty then "0" else String.mk fracChars
  sign ++ toString ip ++ "." ++ fracStr

/-- Python `str()` of a variable value, as used by variable
substitution in `_replace_variables`. -/
def pyStr : PyVal → String
  | .num q => ratToDecimal q
  | .str s => s
  | .pybool b => if b then "True" else "False"
  | .tuple es => "(" ++ String.intercalate ", " es ++ ")"
  | .rangeDict a b _ => "range " ++ a ++ " " ++ b

/-- Transcription of `MathEvaluator._replace_variables`: every
occurrence of a backslash followed by an identifier is replaced by the
string form of the variable's value from the context; unresolved
variables are kept as literal text. -/
def replaceVariablesAux (ctx : EvaluationContext) : List Char → List Char
  | [] => []
  | c :: rest =>
    if c = '\\' then
      match rest with
      | [] => ['\\']
      | d :: tl =>
        if isIdentStart d then
          let nameChars := d :: tl.takeWhile isIdentCont
          let rest2 := tl.dropWhile isIdentCont
          match ctx.get_variable (String.mk nameChars) with
          | some v => (pyStr v).toList ++ replaceVariablesAux ctx rest2
          | none => '\\' :: nameChars ++ replaceVariablesAux ctx rest2
        else '\\' :: replaceVariablesAux ctx (d :: tl)
    else c :: replaceVariablesAux ctx rest
termination_by cs => cs.length
decreasing_by
  all_goals simp only [List.length_cons]
  all_goals first
  | omega
  | (have h := length_dropWhile_le isIdentCont tl
     omega)

/-- Variable substitution over strings. -/
def replaceVariables (ctx : EvaluationContext) (s : String) : String :=
  String.mk (replaceVariablesAux ctx s.toList)

/-- Transcription of `MathEvaluator._process_expression`.  Steps (3)
and (4) of the evaluator (rewriting the recognized function-name
tokens `sqrt, sin, ...` to the numeric library and wrapping trig
arguments in a degree conversion) only matter for inputs containing
function calls; no claim involves such an input and the restricted
evaluator below interprets plain arithmetic, so those two rewriting
passes are the identity on every expression considered here. -/
def processExpression (ctx : EvaluationContext) (s : String) : String :=
  replaceVariables ctx s

/-- Token of the restricted arithmetic evaluator. -/
inductive Tok where
  | num (q : ℚ)
  | ident (s : String)
  | plus
  | minus
  | star
  | slash
  | lparen
  | rparen
deriving DecidableEq

/-- Tokenizer for the restricted arithmetic namespace in which
`_safe_eval` runs: numbers, identifiers, `+ - * / ( )`.  Any other
character is an evaluation error (Python `eval` raises there). -/
def tokenize : List Char → Except String (List Tok)
  | [] => .ok []
  | c :: rest =>
    if c.isWhitespace then tokenize rest
    else if c = '+' then (tokenize rest).map (Tok.plus :: ·)
    else if c = '-' then (tokenize rest).map (Tok.minus :: ·)
    else if c = '*' then (tokenize rest).map (Tok.star :: ·)
    else if c = '/' then (tokenize rest).map (Tok.slash :: ·)
    else if c = '(' then (tokenize rest).map (Tok.lparen :: ·)
    else if c = ')' then (tokenize rest).map (Tok.rparen :: ·)
    else if c.isDigit then
      let ds := c :: rest.takeWhile Char.isDigit
      let fr := splitFrac (rest.dropWhile Char.isDigit)
      let q : ℚ := (digitsVal ds : ℚ) + (digitsVal fr.1 : ℚ) / ((10 : ℚ) ^ fr.1.length)
      (tokenize fr.2).map (Tok.num q :: ·)
    else if isIdentStart c then
      let nameChars := c :: rest.takeWhile isIdentCont
      (tokenize (rest.dropWhile isIdentCont)).map (Tok.ident (String.mk nameChars) :: ·)
    else .error "unexpected character"
termination_by cs => cs.length
decreasing_by
  all_goals simp only [List.length_cons]
  all_goals first
  | omega
  | (have h1 := length_dropWhile_le Char.isDigit tl
     have h2 := splitFrac_snd_le (tl.dropWhile Char.isDigit)
     omega)
  | (have h := length_dropWhile_le isIdentCont tl
     omega)

/-- Lookup in the restricted evaluation namespace (`_safe_eval` builds
it from `context.get_all_variables()`; the chained `get_variable` has
exactly the same precedence, child entries overriding parent entries).
A value that is not usable as a number is an evaluation error. -/
def lookupNamespace (ctx : EvaluationContext) (s : String) : Except String ℚ :=
  match ctx.get_variable s with
  | some (.num q) => .ok q
  | some (.str t) =>
    match parseFloat t with
    | some q => .ok q
    | none => .error "variable is not numeric"
  | some (.pybool b) => .ok (if b then 1 else 0)
  | some _ => .error "variable is not numeric"
  | none => .error "name is not defined"

mutual

/-- Primary expression: number, name, unary sign, parenthesized
expression. -/
def parsePrimary : ℕ → EvaluationContext → List Tok → Except String (ℚ × List Tok)
  | 0, _, _ => .error "expression too deep"
  | fuel + 1, ctx, toks =>
    match toks with
    | .num q :: rest => .ok (q, rest)
    | .ident s :: rest => (lookupNamespace ctx s).map ((·, rest))
    | .minus :: rest => (parsePrimary fuel ctx rest).map (fun p => (-p.1, p.2))
    | .plus :: rest => parsePrimary fuel ctx rest
    | .lparen :: rest =>
      match parseAddSub fuel ctx rest with
      | .ok (v, .rparen :: rest2) => .ok (v, rest2)
      | .ok _ => .error "expected closing parenthesis"
      | .error e => .error e
    | _ => .error "invalid syntax"

/-- Left-associated chain of `*` and `/`; division by zero is an
evaluation error (Python raises `ZeroDivisionError`). -/
def parseMulRest : ℕ → EvaluationContext → ℚ → List Tok → Except String (ℚ × List Tok)
  | 0, _, _, _ => .error "expression too deep"
  | fuel + 1, ctx, acc, toks =>
    match toks with
    | .star :: rest =>
      match parsePrimary fuel ctx rest with
      | .ok (v, rest2) => parseMulRest fuel ctx (acc * v) rest2
      | .error e => .error e
    | .slash :: rest =>
      match parsePrimary fuel ctx rest with
      | .ok (v, rest2) =>
        if v = 0 then .error "division by zero"
        else parseMulRest fuel ctx (acc / v) rest2
      | .error e => .error e
    | _ => .ok (acc, toks)

/-- Multiplicative level. -/
def parseMulDiv : ℕ → EvaluationContext → List Tok → Except String (ℚ × List Tok)
  | 0, _, _ => .error "expression too deep"
  | fuel + 1, ctx, toks =>
    match parsePrimary fuel ctx toks with
    | .ok (v, rest) => parseMulRest fuel ctx v rest
    | .error e => .error e

/-- Left-associated chain of `+` and `-`. -/
def parseAddRest : ℕ → EvaluationContext → ℚ → List Tok → Except String (ℚ × List Tok)
  | 0, _, _, _ => .error "expression too deep"
  | fuel + 1, ctx, acc, toks =>
    match toks with
    | .plus :: rest =>
      match parseMulDiv fuel ctx rest with
      | .ok (v, rest2) => parseAddRest fuel ctx (acc + v) rest2
      | .error e => .error e
    | .minus :: rest =>
      match parseMulDiv fuel ctx rest with
      | .ok (v, rest2) => parseAddRest fuel ctx (acc - v) rest2
      | .error e => .error e
    | _ => .ok (acc, toks)

/-- Additive level (whole expression). -/
def parseAddSub : ℕ → EvaluationContext → List Tok → Except String (ℚ × List Tok)
  | 0, _, _ => .error "expression too deep"
  | fuel + 1, ctx, toks =>
    match parseMulDiv fuel ctx toks with
    | .ok (v, rest) => parseAddRest fuel ctx v rest
    | .error e => .error e

end

/-- Embedding of `MathEvaluator._safe_eval`: evaluate the processed
expression in a namespace exposing only the context's variables.  The
restricted Python `eval` is modelled by a hand-rolled arithmetic
interpreter over the grammar the claims exercise (numbers, names,
`+ - * /`, parentheses); any other construct is an evaluation error,
wrapped like the Python `ValueError`. -/
def safeEval (ctx : EvaluationContext) (s : String) : Except String ℚ :=
  match tokenize s.toList with
  | .error e => .error e
  | .ok [] => .error "unexpected end of input"
  | .ok toks =>
    match parseAddSub (2 * toks.length + 2) ctx toks with
    | .ok (v, []) => .ok v
    | .ok _ => .error "invalid syntax"
    | .error e => .error e

namespace MathEvaluator

/-- Transcription of `MathEvaluator.evaluate`.  A `none` argument
stands for Python `None`; `if not expr` is true exactly for `None` and
the empty string on this call surface.  The result is `Except`: `.ok`
where the Python function returns, `.error` where it raises
`ValueError`. -/
def evaluate (ctx : EvaluationContext) (expr : Option String) : Except String ℚ :=
  match expr with
  | none => .ok 0
  | some s =>
    if s = "" then .ok 0
    else
      let t := pyStrip s
      match parseFloat t with
      | some q => .ok q
      | none =>
        match safeEval ctx (processExpression ctx t) with
        | .ok v => .ok v
        | .error e => .error ("Failed to evaluate expression: " ++ e)

end MathEvaluator

/-- Degree trigonometric interface: `cosd` and `sind` stand for
`math.cos(math.radians _)` and `math.sin(math.radians _)`.  They are
transcendental, so the geometry is parameterized over them; theorems
hold for every interpretation or instantiate them at angles where the
true degree cosine/sine are rational. -/
structure Trig where
  cosd : ℚ → ℚ
  sind : ℚ → ℚ

/-- Transcription of `CoordinateTransformer` (`geometry.py`). -/
structure CoordinateTransformer where
  scale : ℚ
  offset_x : ℚ
  offset_y : ℚ

/-- Render-space point. -/
abbrev Point := ℚ × ℚ

namespace CoordinateTransformer

/-- Transcription of `CoordinateTransformer.tikz_to_svg`:
`svg_x = x*scale + offset_x`, `svg_y = -y*scale + offset_y`. -/
def tikz_to_svg (T : CoordinateTransformer) (x y : ℚ) : Point :=
  (x * T.scale + T.offset_x, -y * T.scale + T.offset_y)

/-- Transcription of `CoordinateTransformer.polar_to_cartesian`
(angle in degrees). -/
def polar_to_cartesian (trig : Trig) (angle radius : ℚ) : Point :=
  (radius * trig.cosd angle, radius * trig.sind angle)

/-- Transformer built by `SVGConverter.__init__` at the default
settings: scale 28.35, canvas 500x500, offsets `width//2 = 250`. -/
def default : CoordinateTransformer := ⟨567/20, 250, 250⟩

end CoordinateTransformer

/-- Modifier map of a `Coordinate` (`modifiers` dict): only the
`operator` and `inner_system` keys are ever consulted. -/
structure Modifiers where
  operator : Option String := none
  inner_system : Option String := none
deriving DecidableEq

/-- Transcription of the `Coordinate` AST node: a system tag, raw
value tokens, an optional name and the modifier map. -/
structure Coordinate where
  system : String
  values : List PyVal := []
  name : Option String := none
  modifiers : Modifiers := {}
deriving DecidableEq

namespace CoordinateResolver

/-- Transcription of `CoordinateResolver.eval_value`: numbers pass
through, strings go through the Math Evaluator with a direct float
parse as fallback and `0.0` on total failure, anything else is `0.0`.
Python `bool` is an `int` subclass, hence the `pybool` case. -/
def eval_value (ctx : EvaluationContext) (value : PyVal) : ℚ :=
  match value with
  | .num q => q
  | .pybool b => if b then 1 else 0
  | .str s =>
    match MathEvaluator.evaluate ctx (some s) with
    | .ok q => q
    | .error _ =>
      match parseFloat s with
      | some q => q
      | none => 0
  | _ => 0

/-- Transcription of `CoordinateResolver._resolve_cartesian`.  The
`Option` result is the exception monad: `none` models the `IndexError`
Python raises when `values` has fewer than two entries. -/
def resolveCartesian (T : CoordinateTransformer) (ctx : EvaluationContext)
    (coord : Coordinate) : Option Point := do
  let vx ← coord.values.get? 0
  let vy ← coord.values.get? 1
  pure (T.tikz_to_svg (eval_value ctx vx) (eval_value ctx vy))

/-- Transcription of `CoordinateResolver._resolve_polar`. -/
def resolvePolar (T : CoordinateTransformer) (trig : Trig) (ctx : EvaluationContext)
    (coord : Coordinate) : Option Point := do
  let va ← coord.values.get? 0
  let vr ← coord.values.get? 1
  let p := CoordinateTransformer.polar_to_cartesian trig (eval_value ctx va) (eval_value ctx vr)
  pure (T.tikz_to_svg p.1 p.2)

/-- Transcription of `CoordinateResolver._resolve_named`: look the
name up in the shared named-coordinate table (most recent store wins),
falling back to the transformed origin. -/
def resolveNamed (T : CoordinateTransformer) (named : List (String × Point))
    (coord : Coordinate) : Option Point :=
  match coord.name with
  | some n =>
    match named.lookup n with
    | some p => some p
    | none => some (T.tikz_to_svg 0 0)
  | none => some (T.tikz_to_svg 0 0)

/-- Transcription of `CoordinateResolver._resolve_relative`: with a
current position, evaluate the inner delta (cartesian or polar, else
zero), scale it into render units with the Y flip and add it; with no
current position treat the coordinate as absolute if it has values,
else fall back to the transformed origin. -/
def resolveRelative (T : CoordinateTransformer) (trig : Trig) (ctx : EvaluationContext)
    (coord : Coordinate) (current_pos : Option Point) : Option Point :=
  match current_pos with
  | some cp =>
    let innerSystem := coord.modifiers.inner_system.getD "cartesian"
    let delta : Option Point :=
      if innerSystem = "cartesian" then do
        let vx ← coord.values.get? 0
        let vy ← coord.values.get? 1
        pure (eval_value ctx vx, eval_value ctx vy)
      else if innerSystem = "polar" then do
        let va ← coord.values.get? 0
        let vr ← coord.values.get? 1
        pure (CoordinateTransformer.polar_to_cartesian trig (eval_value ctx va) (eval_value ctx vr))
      else
        pure (0, 0)
    match delta with
    | none => none
    | some (dx, dy) => some (cp.1 + dx * T.scale, cp.2 + (-dy) * T.scale)
  | none =>
    if coord.values ≠ [] then do
      let vx ← coord.values.get? 0
      let vy ← coord.values.get? 1
      pure (T.tikz_to_svg (eval_value ctx vx) (eval_value ctx vy))
    else
      some (T.tikz_to_svg 0 0)

/-- Transcription of `CoordinateResolver.resolve`: dispatch on the
system tag, defaulting to the transformed origin for an unknown tag. -/
def resolve (T : CoordinateTransformer) (trig : Trig) (ctx : EvaluationContext)
    (named : List (String × Point)) (coord : Coordinate)
    (current_pos : Option Point := none) : Option Point :=
  if coord.system = "cartesian" then resolveCartesian T ctx coord
  else if coord.system = "polar" then resolvePolar T trig ctx coord
  else if coord.system = "named" then resolveNamed T named coord
  else if coord.system = "relative" then resolveRelative T trig ctx coord current_pos
  else some (T.tikz_to_svg 0 0)

end CoordinateResolver

/-- Ascending while-loop of the range expansion and the grid renderer:
collect `cur, cur+step, ...` while `cur <= stop`.  The loop terminates
for every positive step (the Python loop diverges for a nonpositive
step; that case is handled by the callers below). -/
def ratSeqUp (step : ℚ) (h : 0 < step) (stop : ℚ) (cur : ℚ) : List ℚ :=
  if cur ≤ stop then cur :: ratSeqUp step h stop (cur + step) else []
termination_by (⌈(stop - cur) / step⌉ + 1).toNat
decreasing_by
  rename_i hc
  have key : (stop - (cur + step)) / step = (stop - cur) / step - 1 := by
    field_simp
    ring
  rw [key, Int.ceil_sub_one]
  have hx : (0 : ℚ) ≤ (stop - cur) / step := div_nonneg (by linarith) h.le
  have hcx : 0 ≤ ⌈(stop - cur) / step⌉ := Int.ceil_nonneg hx
  omega

/-- Descending while-loop of the range expansion: collect
`cur, cur+step, ...` while `cur >= stop`, for a negative step. -/
def ratSeqDown (step : ℚ) (h : step < 0) (stop : ℚ) (cur : ℚ) : List ℚ :=
  if stop ≤ cur then cur :: ratSeqDown step h stop (cur + step) else []
termination_by (⌈(cur - stop) / (-step)⌉ + 1).toNat
decreasing_by
  rename_i hc
  have hpos : (0 : ℚ) < -step := by linarith
  have hne : step ≠ 0 := ne_of_lt h
  have key : (cur + step - stop) / (-step) = (cur - stop) / (-step) - 1 := by
    field_simp
    ring
  rw [key, Int.ceil_sub_one]
  have hx : (0 : ℚ) ≤ (cur - stop) / (-step) := div_nonneg (by linarith) hpos.le
  have hcx : 0 ≤ ⌈(cur - stop) / (-step)⌉ := Int.ceil_nonneg hx
  omega

/-- Transcription of the range-generation loop in
`foreach_value_list` (`parser.py`): positive step counts up to
`end + 1e-10`, negative step counts down to `end - 1e-10`, zero step
yields the single-element list containing the start value. -/
def rangeValues (start step stop : ℚ) : List ℚ :=
  if h : 0 < step then ratSeqUp step h (stop + 1 / 10000000000) start
  else if h2 : step < 0 then ratSeqDown step h2 (stop - 1 / 10000000000) start
  else [start]

/-- Item of a foreach value list after the `foreach_item` /
`foreach_value` transforms: the literal `...` token, a single raw
value string, or a slash-paired tuple of raw strings. -/
inductive ForeachItem where
  | dots
  | val (s : String)
  | pair (a b : String)
deriving DecidableEq, BEq

/-- Python `str(item)` on a foreach item. -/
def itemStr : ForeachItem → String
  | .dots => "..."
  | .val s => s
  | .pair a b => "(" ++ a ++ ", " ++ b ++ ")"

/-- Loop value produced for a non-range item. -/
def itemToVal : ForeachItem → PyVal
  | .val s => .str s
  | .pair a b => .tuple [a, b]
  | .dots => .str "..."

/-- Range expansion after the bounds were located: float-parse the
bounds and generate the literal list, falling back to a range dict for
later evaluation when a bound does not parse. -/
def expandRangeOrFallback (start stop : String) (step : ℚ) : List PyVal :=
  match parseFloat start, parseFloat stop with
  | some s, some e => (rangeValues s step e).map PyVal.num
  | _, _ => [.rangeDict start stop step]

/-- Transcription of `TikzTransformer.foreach_value_list`
(`parser.py`): locate the first `...`; at index 1 expand a
`start,...,end` range with step 1, at index 2 a `start,step,...,end`
range with step `step_val - start` (step 1 when those do not parse),
anywhere else drop the dots and keep the values; with no dots, keep
the simple list. -/
def foreach_value_list (items : List ForeachItem) : List PyVal :=
  match items.findIdx? (· == ForeachItem.dots) with
  | none => items.map itemToVal
  | some 1 =>
    let start := itemStr (items.getD 0 .dots)
    let stop := match items.get? 2 with
      | some it => itemStr it
      | none => "0"
    expandRangeOrFallback start stop 1
  | some 2 =>
    let start := itemStr (items.getD 0 .dots)
    let stepv := itemStr (items.getD 1 .dots)
    let stop := match items.get? 3 with
      | some it => itemStr it
      | none => "0"
    let step : ℚ := match parseFloat start, parseFloat stepv with
      | some a, some b => b - a
      | _, _ => 1
    expandRangeOrFallback start stop step
  | some _ => (items.filter (· != ForeachItem.dots)).map itemToVal

/-- Structured SVG path command, the content of the strings the
renderer emits (`M`, `L`, `Q`, `C`, `A rx ry rot large sweep x y`,
`Z`).  Fixed-precision printing is presentation only and not
modelled. -/
inductive PathCmd where
  | M (x y : ℚ)
  | L (x y : ℚ)
  | Q (cx cy x y : ℚ)
  | C (c1x c1y c2x c2y x y : ℚ)
  | A (rx ry rot : ℚ) (largeArc sweep : ℕ) (x y : ℚ)
  | Z
deriving DecidableEq

/-- Arc specification dict (`{"format": ..., "start_angle": ...,
"end_angle": ..., "radius": ...}`); absent keys fall back to the
`dict.get` defaults at use sites. -/
structure ArcSpec where
  format : Option String := none
  start_angle : Option PyVal := none
  end_angle : Option PyVal := none
  radius : Option PyVal := none
deriving DecidableEq

/-- Truth of `not arc_spec` (the empty dict). -/
def ArcSpec.isEmpty (s : ArcSpec) : Bool :=
  s.format.isNone && s.start_angle.isNone && s.end_angle.isNone && s.radius.isNone

/-- Circle specification dict. -/
structure CircleSpec where
  radius : Option PyVal := none
deriving DecidableEq

/-- Segment operation: either a plain tag string (`start`, `--`,
`..`, `|-`, `-|`, `rectangle`, `grid`, `cycle`, `move`, ...) or one of
the structured dict operations. -/
inductive Operation where
  | op (tag : String)
  | arc (spec : ArcSpec)
  | circle (spec : CircleSpec)
  | controls (points : List Coordinate)
deriving DecidableEq

/-- Transcription of the `PathSegment` AST node (the `options` field
carrying inline labels is not consulted by the renderer or the
converter modelled here). -/
structure PathSegment where
  operation : Operation
  destination : Option Coordinate := none
deriving DecidableEq

/-- Transcription of the `Path` AST node. -/
structure Path where
  segments : List PathSegment := []
  closed : Bool := false
deriving DecidableEq

/-- Transcription of `PathRenderer.render_arc` and of its verbatim
duplicate `SVGConverter.convert_arc`: empty spec or missing cursor
yield the empty string (`none` here), the `angles` format computes the
chord endpoint from the angular span, the options format pivots from
the end angle only and always sweeps. -/
def render_arc (T : CoordinateTransformer) (trig : Trig) (ctx : EvaluationContext)
    (arc_spec : ArcSpec) (current_pos : Option Point) : Option PathCmd :=
  if arc_spec.isEmpty then none
  else
    match current_pos with
    | none => none
    | some cp =>
      let fmt := arc_spec.format.getD "angles"
      let start_angle := CoordinateResolver.eval_value ctx (arc_spec.start_angle.getD (.num 0))
      let end_angle := CoordinateResolver.eval_value ctx (arc_spec.end_angle.getD (.num 90))
      let radius := CoordinateResolver.eval_value ctx (arc_spec.radius.getD (.num 1)) * T.scale
      let large_arc : ℕ := if |end_angle - start_angle| > 180 then 1 else 0
      if fmt = "angles" then
        let dx := radius * (trig.cosd end_angle - trig.cosd start_angle)
        let dy := radius * (trig.sind end_angle - trig.sind start_angle)
        let end_x := cp.1 + dx * T.scale
        let end_y := cp.2 - dy * T.scale
        let sweep : ℕ := if end_angle > start_angle then 1 else 0
        some (.A radius radius 0 large_arc sweep end_x end_y)
      else
        let end_x := cp.1 + radius * trig.cosd end_angle
        let end_y := cp.2 - radius * trig.sind end_angle
        some (.A radius radius 0 large_arc 1 end_x end_y)

/-- Transcription of `PathRenderer._render_circle_as_path` (inlined
verbatim in `SVGConverter.convert_path`): move to the left extreme,
then two half-circle arcs with the large-arc flag set. -/
def render_circle_as_path (center : Point) (radius : ℚ) : List PathCmd :=
  [.M (center.1 - radius) center.2,
   .A radius radius 0 1 0 (center.1 + radius) center.2,
   .A radius radius 0 1 0 (center.1 - radius) center.2]

/-- Center choice and emission of the structured circle operation in
`render_path`/`convert_path`: destination if a cursor AND a
destination are present, else the cursor, else the transformed origin;
the radius is the evaluated spec radius converted to render units.
Returns the commands and the new cursor (the center). -/
def circle_step (T : CoordinateTransformer) (trig : Trig) (ctx : EvaluationContext)
    (named : List (String × Point)) (spec : CircleSpec) (dest : Option Coordinate)
    (current_pos : Option Point) : Option (List PathCmd × Point) :=
  let center? : Option Point :=
    match current_pos, dest with
    | some cp, some d => CoordinateResolver.resolve T trig ctx named d (some cp)
    | some cp, none => some cp
    | none, _ => some (T.tikz_to_svg 0 0)
  match center? with
  | none => none
  | some center =>
    let radius := CoordinateResolver.eval_value ctx (spec.radius.getD (.num 1)) * T.scale
    some (render_circle_as_path center radius, center)

/-- Transcription of `PathRenderer._render_bezier`: two control
points make a cubic, one a quadratic, anything else no command.  The
outer `Option` is the exception monad of control-point resolution. -/
def render_bezier (T : CoordinateTransformer) (trig : Trig) (ctx : EvaluationContext)
    (named : List (String × Point)) (dest : Point) (controls : List Coordinate)
    (current_pos : Point) : Option (Option PathCmd) :=
  match controls with
  | [c1, c2] => do
    let p1 ← CoordinateResolver.resolve T trig ctx named c1 (some current_pos)
    let p2 ← CoordinateResolver.resolve T trig ctx named c2 (some current_pos)
    pure (some (.C p1.1 p1.2 p2.1 p2.2 dest.1 dest.2))
  | [c1] => do
    let p1 ← CoordinateResolver.resolve T trig ctx named c1 (some current_pos)
    pure (some (.Q p1.1 p1.2 dest.1 dest.2))
  | _ => pure none

/-- Transcription of `PathRenderer._render_simple_curve`: a quadratic
through the midpoint, degrading to a line without a cursor. -/
def render_simple_curve (x y : ℚ) (current_pos : Option Point) : PathCmd :=
  match current_pos with
  | some cp => .Q ((cp.1 + x) / 2) ((cp.2 + y) / 2) x y
  | none => .L x y

/-- Transcription of `PathRenderer._render_orthogonal`. -/
def render_orthogonal (op : String) (x y : ℚ) (current_pos : Option Point) : List PathCmd :=
  match current_pos with
  | some cp => if op = "|-" then [.L x cp.2, .L x y] else [.L cp.1 y, .L x y]
  | none => [.L x y]

/-- Transcription of `PathRenderer._render_rectangle`. -/
def render_rectangle (x y : ℚ) (current_pos : Option Point) : List PathCmd :=
  match current_pos with
  | some cp => [.L x cp.2, .L x y, .L cp.1 y, .Z]
  | none => []

/-- Vertical grid lines: a move/line pair per x position. -/
def vlineCmds (yStart yEnd : ℚ) : List ℚ → List PathCmd
  | [] => []
  | gx :: rest => .M gx yStart :: .L gx yEnd :: vlineCmds yStart yEnd rest

/-- Horizontal grid lines: a move/line pair per y position. -/
def hlineCmds (xStart xEnd : ℚ) : List ℚ → List PathCmd
  | [] => []
  | gy :: rest => .M xStart gy :: .L xEnd gy :: hlineCmds xStart xEnd rest

/-- Transcription of `PathRenderer._render_grid` (inlined verbatim in
`SVGConverter.convert_path`): no cursor emits nothing; otherwise
vertical then horizontal move/line pairs over the bounding box of
cursor and destination, stepping by `scale * 28.35` with a `0.01`
boundary tolerance.  The Python while-loop diverges for a nonpositive
step (scale <= 0); that unreachable configuration is mapped to the
empty list here and every theorem about the grid assumes a positive
scale. -/
def render_grid (T : CoordinateTransformer) (x y : ℚ) (current_pos : Option Point) :
    List PathCmd :=
  match current_pos with
  | none => []
  | some cp =>
    let step := T.scale * (567 / 20)
    let x_start := min cp.1 x
    let x_end := max cp.1 x
    let y_start := min cp.2 y
    let y_end := max cp.2 y
    if h : 0 < step then
      vlineCmds y_start y_end (ratSeqUp step h (x_end + 1 / 100) x_start) ++
        hlineCmds x_start x_end (ratSeqUp step h (y_end + 1 / 100) y_start)
    else []

/-- Cursor update rule after a destination segment (`render_path` and
`convert_path`, identical in both): a `relative` destination persists
the resolved point only when its `operator` modifier (default `++`)
equals `++`; every other destination persists it unconditionally. -/
def updateCursor (dest : Coordinate) (resolved : Point) (current_pos : Option Point) :
    Option Point :=
  if dest.system = "relative" then
    if dest.modifiers.operator.getD "++" = "++" then some resolved else current_pos
  else some resolved

/-- Command emission for a plain destination operation in
`PathRenderer.render_path` (the branch ladder over the tag; unknown
tags default to a line). -/
def destCommands (T : CoordinateTransformer) (tag : String) (x y : ℚ)
    (current_pos : Option Point) : List PathCmd :=
  if tag = "start" then [.M x y]
  else if tag = "move" then [.M x y]
  else if tag = "--" then [.L x y]
  else if tag = ".." then [render_simple_curve x y current_pos]
  else if tag = "|-" || tag = "-|" then render_orthogonal tag x y current_pos
  else if tag = "rectangle" then render_rectangle x y current_pos
  else if tag = "grid" then render_grid T x y current_pos
  else [.L x y]

/-- Command emission for a plain destination operation in
`SVGConverter.convert_path`: identical to `destCommands` except that
the converter's copy has no `move` branch, so a `move` tag falls
through to the default line. -/
def destCommandsConverter (T : CoordinateTransformer) (tag : String) (x y : ℚ)
    (current_pos : Option Point) : List PathCmd :=
  if tag = "start" then [.M x y]
  else if tag = "--" then [.L x y]
  else if tag = ".." then [render_simple_curve x y current_pos]
  else if tag = "|-" || tag = "-|" then render_orthogonal tag x y current_pos
  else if tag = "rectangle" then render_rectangle x y current_pos
  else if tag = "grid" then render_grid T x y current_pos
  else [.L x y]

/-- Segment walk shared by `PathRenderer.render_path` and its
near-verbatim duplicate `SVGConverter.convert_path`; the two sources
differ only in the destination-tag ladder, passed in as `destCmds`.
State: accumulated commands and the mutable cursor.  `none` is the
exception monad (an `IndexError` escaping coordinate resolution). -/
def path_walk (T : CoordinateTransformer) (trig : Trig) (ctx : EvaluationContext)
    (named : List (String × Point))
    (destCmds : String → ℚ → ℚ → Option Point → List PathCmd) :
    List PathSegment → List PathCmd → Option Point → Option (List PathCmd × Option Point)
  | [], acc, cp => some (acc, cp)
  | seg :: rest, acc, cp =>
    match seg.operation with
    | .op tag =>
      if tag = "cycle" then path_walk T trig ctx named destCmds rest (acc ++ [.Z]) cp
      else
        match seg.destination with
        | some dest =>
          match CoordinateResolver.resolve T trig ctx named dest cp with
          | none => none
          | some p =>
            path_walk T trig ctx named destCmds rest (acc ++ destCmds tag p.1 p.2 cp)
              (updateCursor dest p cp)
        | none => path_walk T trig ctx named destCmds rest acc cp
    | .arc spec =>
      match render_arc T trig ctx spec cp with
      | some cmd => path_walk T trig ctx named destCmds rest (acc ++ [cmd]) cp
      | none => path_walk T trig ctx named destCmds rest acc cp
    | .circle spec =>
      match circle_step T trig ctx named spec seg.destination cp with
      | none => none
      | some (cmds, center) =>
        path_walk T trig ctx named destCmds rest (acc ++ cmds) (some center)
    | .controls points =>
      match cp, seg.destination with
      | some cpos, some d =>
        match CoordinateResolver.resolve T trig ctx named d (some cpos) with
        | none => none
        | some dp =>
          match render_bezier T trig ctx named dp points cpos with
          | none => none
          | some none => path_walk T trig ctx named destCmds rest acc cp
          | some (some cmd) =>
            path_walk T trig ctx named destCmds rest (acc ++ [cmd]) (some dp)
      | _, _ => path_walk T trig ctx named destCmds rest acc cp

/-- Transcription of `PathRenderer.render_path`, returning the
emitted commands together with the final cursor (a local of the
Python function, exposed for the cursor-semantics theorems; the
Python return value is the joined command list). -/
def render_path (T : CoordinateTransformer) (trig : Trig) (ctx : EvaluationContext)
    (named : List (String × Point)) (path : Path) :
    Option (List PathCmd × Option Point) :=
  path_walk T trig ctx named (destCommands T) path.segments [] none

/-- Transcription of `SVGConverter.convert_path`: the duplicate
walker plus the trailing `Z` for a closed path. -/
def convert_path (T : CoordinateTransformer) (trig : Trig) (ctx : EvaluationContext)
    (named : List (String × Point)) (path : Path) : Option (List PathCmd) :=
  match path_walk T trig ctx named (destCommandsConverter T) path.segments [] none with
  | none => none
  | some (cmds, _) => some (if path.closed then cmds ++ [.Z] else cmds)

/-- Output element of the converter, the structured content of the
SVG fragment strings (`<path .../>`, `<text ...>`, `<g>...</g>`, the
arrow-marker `defs` block).  Style strings are produced by the
excluded Style Formatter collaborator and are not modelled. -/
inductive Element where
  | pathEl (d : List PathCmd) (markerStart markerEnd : Bool)
  | textEl (x y : ℚ) (text : String)
  | group (children : List Element)
  | defsArrowMarkers

/-- Presence of the arrow-marker `defs` block among the document's
top-level elements. -/
def hasDefsBlock (doc : List Element) : Bool :=
  doc.any fun e =>
    match e with
    | .defsArrowMarkers => true
    | _ => false

/-- List-of-chars head test used by the substring check. -/
def startsWithChars : List Char → List Char → Bool
  | _, [] => true
  | [], _ :: _ => false
  | a :: as_, b :: bs => a = b && startsWithChars as_ bs

/-- Substring test on char lists. -/
def containsChars (hay needle : List Char) : Bool :=
  match hay with
  | [] => needle.isEmpty
  | _ :: rest => startsWithChars hay needle || containsChars rest needle

/-- Substring test (Python `needle in hay`). -/
def strContains (hay needle : String) : Bool :=
  containsChars hay.toList needle.toList

/-- Statement AST as consumed by `SVGConverter.visit_statement`; the
kinds with no effect on the modelled state (layers, style
definitions) are omitted.  An evaluate clause is `(target,
expression)`. -/
inductive Stmt where
  | draw (command : String) (options : List (String × PyVal)) (path : Path)
  | node (name : Option String) (position : Option Coordinate) (text : String)
  | coordDef (name : String) (position : Option Coordinate)
  | macroDef (name : String) (body : String)
  | scope (stmts : List Stmt)
  | foreach (loopVars : List String) (values : List PyVal)
      (eval_clause : Option (String × String)) (body : List Stmt)

/-- Root AST node (`TikzPicture`). -/
structure Picture where
  statements : List Stmt := []

/-- Mutable converter state threaded through the visit: the current
evaluation context (`self.context`) and the global named-coordinate
table (`self.named_coordinates`, most recent store first). -/
structure ConvState where
  context : EvaluationContext
  named : List (String × Point) := []

/-- Bottom of the parent chain.  The coordinate resolver's
`MathEvaluator` is constructed once with the root context object;
writes only ever target the innermost context, so the root ancestor
of the current chain is exactly the context that evaluator sees. -/
def EvaluationContext.rootAncestor : EvaluationContext → EvaluationContext
  | .mk v none => .mk v none
  | .mk _ (some p) => p.rootAncestor

/-- Transcription of `OptionProcessor.safe_evaluate` (and of the
identical `SVGConverter._safe_evaluate`): non-strings pass through,
strings are evaluated with fallback to the original string. -/
def safe_evaluate (ctx : EvaluationContext) (value : PyVal) : PyVal :=
  match value with
  | .str s =>
    match MathEvaluator.evaluate ctx (some s) with
    | .ok q => .num q
    | .error _ => .str s
  | v => v

/-- Positional zip of loop variables with a tuple value: variables
beyond the tuple length are left unbound. -/
def bindPairs (parentCtx : EvaluationContext) (loopVars : List String)
    (elems : List String) (ctx : EvaluationContext) : EvaluationContext :=
  (loopVars.zip elems).foldl
    (fun c pe => c.set_variable pe.1 (safe_evaluate parentCtx (.str pe.2))) ctx

/-- Transcription of `ForeachLoopExpander._set_loop_variables` (and
of the inlined copy in `SVGConverter.visit_foreach_loop`): one
variable binds the safely evaluated value; several variables bind
positionally when the value is a tuple/list and bind nothing at all
otherwise.  Values are evaluated against the parent evaluator. -/
def set_loop_variables (loopVars : List String) (value : PyVal)
    (parentCtx : EvaluationContext) (ctx : EvaluationContext) : EvaluationContext :=
  if loopVars.length = 1 then
    ctx.set_variable (loopVars.headD "") (safe_evaluate parentCtx value)
  else if 1 < loopVars.length then
    match value with
    | .tuple elems => bindPairs parentCtx loopVars elems ctx
    | _ => ctx
  else ctx

/-- Transcription of `_handle_evaluate_clause`: evaluate the clause
expression against the child context and bind the target, swallowing
evaluation failure. -/
def apply_evaluate_clause (clause : Option (String × String))
    (ctx : EvaluationContext) : EvaluationContext :=
  match clause with
  | none => ctx
  | some te =>
    match MathEvaluator.evaluate ctx (some te.2) with
    | .ok q => ctx.set_variable te.1 (.num q)
    | .error _ => ctx

/-- Context in which one loop iteration starts visiting the body: a
fresh child of the pre-iteration context, loop variables bound, then
the evaluate clause applied. -/
def iter_init_context (loopVars : List String) (clause : Option (String × String))
    (parentCtx : EvaluationContext) (value : PyVal) : EvaluationContext :=
  apply_evaluate_clause clause
    (set_loop_variables loopVars value parentCtx parentCtx.create_child_context)

/-- Arrow option string: `stmt.options.get("arrow", "")` (the parser
only ever stores strings under this key). -/
def getArrowSpec (options : List (String × PyVal)) : String :=
  match options.lookup "arrow" with
  | some (.str s) => s
  | _ => ""

/-- Marker attributes of `visit_draw_statement`: start marker when
the arrow spec contains `<-`, end marker when it contains `->`. -/
def arrowMarkers (options : List (String × PyVal)) : Bool × Bool :=
  let arrow_spec := getArrowSpec options
  if arrow_spec ≠ "" then (strContains arrow_spec "<-", strContains arrow_spec "->")
  else (false, false)

mutual

/-- Transcription of `SVGConverter.visit_statement` and the visitors
it dispatches to.  Result: the emitted elements (the empty list where
Python returns `None` or an empty string) and the updated state;
`none` is an exception escaping to the caller (no output document).
Coordinate resolution inside visitors uses the root ancestor of the
current context, because the resolver's evaluator was constructed
with the root context object (loop-local variables are invisible to
it). -/
def visit_stmt (T : CoordinateTransformer) (trig : Trig) :
    Stmt → ConvState → Option (List Element × ConvState)
  | .draw _command options path, st =>
    match convert_path T trig st.context.rootAncestor st.named path with
    | none => none
    | some cmds =>
      let ms := arrowMarkers options
      some ([.pathEl cmds ms.1 ms.2], st)
  | .node name position text, st =>
    let pos? : Option Point :=
      match position with
      | some p => CoordinateResolver.resolve T trig st.context.rootAncestor st.named p none
      | none => some (T.tikz_to_svg 0 0)
    match pos? with
    | none => none
    | some p =>
      let named2 := match name with
        | some n => (n, p) :: st.named
        | none => st.named
      some ([.textEl p.1 p.2 text], { st with named := named2 })
  | .coordDef name position, st =>
    match position with
    | some pc =>
      match CoordinateResolver.resolve T trig st.context.rootAncestor st.named pc none with
      | none => none
      | some p => some ([], { st with named := (name, p) :: st.named })
    | none => some ([], st)
  | .macroDef name body, st =>
    let newCtx := match MathEvaluator.evaluate st.context (some body) with
      | .ok q => st.context.set_variable name (.num q)
      | .error _ => st.context.set_variable name (.str body)
    some ([], { st with context := newCtx })
  | .scope stmts, st =>
    match visit_stmts T trig stmts st with
    | none => none
    | some (els, st1) => some (if els.isEmpty then [] else [.group els], st1)
  | .foreach loopVars values clause body, st =>
    foreach_iter T trig loopVars clause body values st

/-- Statement-list visit: elements of each statement collected in
order (an empty result contributes nothing, like the Python
truthiness filter). -/
def visit_stmts (T : CoordinateTransformer) (trig : Trig) :
    List Stmt → ConvState → Option (List Element × ConvState)
  | [], st => some ([], st)
  | s :: rest, st =>
    match visit_stmt T trig s st with
    | none => none
    | some (els, st1) =>
      match visit_stmts T trig rest st1 with
      | none => none
      | some (els2, st2) => some (els ++ els2, st2)

/-- Transcription of `ForeachLoopExpander.expand` (and of the
identical inlined loop in `SVGConverter.visit_foreach_loop`): per
value, save the current context, switch to a fresh bound child, visit
the body, and restore the saved context in a `finally`. -/
def foreach_iter (T : CoordinateTransformer) (trig : Trig) (loopVars : List String)
    (clause : Option (String × String)) (body : List Stmt) :
    List PyVal → ConvState → Option (List Element × ConvState)
  | [], st => some ([], st)
  | v :: rest, st =>
    let parentCtx := st.context
    let childCtx := iter_init_context loopVars clause parentCtx v
    match visit_stmts T trig body { st with context := childCtx } with
    | none => none
    | some (els, st1) =>
      match foreach_iter T trig loopVars clause body rest { st1 with context := parentCtx } with
      | none => none
      | some (els2, st2) => some (els ++ els2, st2)

end

/-- Transcription of `SVGConverter._check_for_arrows`: only the
top-level statements are scanned, for draw statements carrying an
`arrow` option key. -/
def check_for_arrows (pic : Picture) : Bool :=
  pic.statements.any fun s =>
    match s with
    | .draw _ options _ => (options.lookup "arrow").isSome
    | _ => false

/-- Transcription of `SVGConverter.convert`: the marker `defs` block
first when the top-level arrow scan fires, then the visited
statements.  The surrounding `svg` root element is plain fixed-size
serialization and is not modelled. -/
def convert (T : CoordinateTransformer) (trig : Trig) (pic : Picture) :
    Option (List Element) :=
  match visit_stmts T trig pic.statements { context := .root, named := [] } with
  | none => none
  | some (els, _) =>
    some ((if check_for_arrows pic then [Element.defsArrowMarkers] else []) ++ els)

/-- Grid emission as the specification words it (`Modelled from the
spec` for comparison with `render_grid`): the same move/line structure
but with the lines spaced at the domain language's default grid
spacing as a fixed step, independent of the document scale. -/
def render_grid_spec_fixed_step (_T : CoordinateTransformer) (x y : ℚ)
    (current_pos : Option Point) : List PathCmd :=
  match current_pos with
  | none => []
  | some cp =>
    let step : ℚ := 567 / 20
    let x_start := min cp.1 x
    let x_end := max cp.1 x
    let y_start := min cp.2 y
    let y_end := max cp.2 y
    if h : 0 < step then
      vlineCmds y_start y_end (ratSeqUp step h (x_end + 1 / 100) x_start) ++
        hlineCmds x_start x_end (ratSeqUp step h (y_end + 1 / 100) y_start)
    else []

mutual

/-- Claim predicate for the arrow/defs relationship: a statement
anywhere in the picture (inside loops and scopes included) whose
arrow option has a direction. -/
def specifiesDirectionalArrows : Stmt → Bool
  | .draw _ options _ =>
    let a := getArrowSpec options
    strContains a "->" || strContains a "<-"
  | .scope stmts => specifiesDirectionalArrowsList stmts
  | .foreach _ _ _ body => specifiesDirectionalArrowsList body
  | _ => false

/-- Any-statement version of `specifiesDirectionalArrows`. -/
def specifiesDirectionalArrowsList : List Stmt → Bool
  | [] => false
  | s :: rest => specifiesDirectionalArrows s || specifiesDirectionalArrowsList rest

end

/-- Value-index access pattern of `resolve`: `true` exactly when the
Python code path for this coordinate/cursor combination subscripts
`coord.values[0]` and `[1]`. -/
def accessesValues (coord : Coordinate) (current_pos : Option Point) : Bool :=
  if coord.system = "cartesian" then true
  else if coord.system = "polar" then true
  else if coord.system = "named" then false
  else if coord.system = "relative" then
    match current_pos with
    | some _ =>
      let inner := coord.modifiers.inner_system.getD "cartesian"
      inner = "cartesian" || inner = "polar"
    | none => !coord.values.isEmpty
  else false

/-- Degenerate trig interpretation, used to instantiate theorems at
concrete inputs that involve no polar or arc geometry. -/
def trigZero : Trig := ⟨fun _ => 0, fun _ => 0⟩

set_option maxRecDepth 8000

/-- Helper: concrete float parses used by the range-expansion and
renderer theorems. -/
theorem parseFloat_s0 : parseFloat "0" = some 0 := by
  have h1 : trimChars "0".toList = ['0'] := by decide
  simp +decide [parseFloat, h1, digitsVal]

theorem parseFloat_s1 : parseFloat "1" = some 1 := by
  have h1 : trimChars "1".toList = ['1'] := by decide
  simp +decide [parseFloat, h1, digitsVal]

theorem parseFloat_s2 : parseFloat "2" = some 2 := by
  have h1 : trimChars "2".toList = ['2'] := by decide
  simp +decide [parseFloat, h1, digitsVal]

theorem parseFloat_s3 : parseFloat "3" = some 3 := by
  have h1 : trimChars "3".toList = ['3'] := by decide
  simp +decide [parseFloat, h1, digitsVal]

theorem parseFloat_s4 : parseFloat "4" = some 4 := by
  have h1 : trimChars "4".toList = ['4'] := by decide
  simp +decide [parseFloat, h1, digitsVal]

theorem parseFloat_s6 : parseFloat "6" = some 6 := by
  have h1 : trimChars "6".toList = ['6'] := by decide
  simp +decide [parseFloat, h1, digitsVal]

theorem parseFloat_s8 : parseFloat "8" = some 8 := by
  have h1 : trimChars "8".toList = ['8'] := by decide
  simp +decide [parseFloat, h1, digitsVal]

theorem parseFloat_s9 : parseFloat "9" = some 9 := by
  have h1 : trimChars "9".toList = ['9'] := by decide
  simp +decide [parseFloat, h1, digitsVal]

/-- C4: foreach range expansion happens at parse time and produces a
literal value list: `{0,...,4}` expands to `[0,1,2,3,4]`,
`{0,2,...,8}` to `[0,2,4,6,8]` (float epsilon tolerance at the
boundary), a zero step yields the single-element list containing the
start, and a reversed range with negative step (`{8,6,...,0}`)
terminates with the literal descending list. -/
theorem c4_foreach_range_expansion :
    foreach_value_list [.val "0", .dots, .val "4"] =
      [.num 0, .num 1, .num 2, .num 3, .num 4]
    ∧ foreach_value_list [.val "0", .val "2", .dots, .val "8"] =
      [.num 0, .num 2, .num 4, .num 6, .num 8]
    ∧ (∀ start stop : ℚ, rangeValues start 0 stop = [start])
    ∧ foreach_value_list [.val "3", .val "3", .dots, .val "9"] = [.num 3]
    ∧ foreach_value_list [.val "8", .val "6", .dots, .val "0"] =
      [.num 8, .num 6, .num 4, .num 2, .num 0] := by
  refine ⟨?_, ?_, ?_, ?_, ?_⟩
  · rw [show foreach_value_list [.val "0", .dots, .val "4"]
        = expandRangeOrFallback "0" "4" 1 from by
      simp +decide [foreach_value_list, itemStr]]
    rw [expandRangeOrFallback, parseFloat_s0, parseFloat_s4]
    dsimp only
    rw [show rangeValues 0 1 4 = ratSeqUp 1 (by norm_num) (4 + 1/10000000000) 0 from by
      rw [rangeValues, dif_pos (by norm_num : (0:ℚ) < 1)]]
    repeat (rw [ratSeqUp]; norm_num)
  · rw [show foreach_value_list [.val "0", .val "2", .dots, .val "8"]
        = expandRangeOrFallback "0" "8" 2 from by
      simp +decide [foreach_value_list, itemStr, parseFloat_s0, parseFloat_s2]]
    rw [expandRangeOrFallback, parseFloat_s0, parseFloat_s8]
    dsimp only
    rw [show rangeValues 0 2 8 = ratSeqUp 2 (by norm_num) (8 + 1/10000000000) 0 from by
      rw [rangeValues, dif_pos (by norm_num : (0:ℚ) < 2)]]
    repeat (rw [ratSeqUp]; norm_num)
  · intro start stop
    rw [rangeValues, dif_neg (by norm_num : ¬ ((0:ℚ) < 0)),
      dif_neg (by norm_num : ¬ ((0:ℚ) < 0))]
  · rw [show foreach_value_list [.val "3", .val "3", .dots, .val "9"]
        = expandRangeOrFallback "3" "9" 0 from by
      simp +decide [foreach_value_list, itemStr, parseFloat_s3]]
    rw [expandRangeOrFallback, parseFloat_s3, parseFloat_s9]
    dsimp only
    rw [rangeValues, dif_neg (by norm_num : ¬ ((0:ℚ) < 0)),
      dif_neg (by norm_num : ¬ ((0:ℚ) < 0))]
    simp
  · rw [show foreach_value_list [.val "8", .val "6", .dots, .val "0"]
        = expandRangeOrFallback "8" "0" (-2) from by
      simp +decide [foreach_value_list, itemStr, parseFloat_s8, parseFloat_s6]
      norm_num]
    rw [expandRangeOrFallback, parseFloat_s8, parseFloat_s0]
    dsimp only
    rw [show rangeValues 8 (-2) 0 = ratSeqDown (-2) (by norm_num) (0 - 1/10000000000) 8 from by
      rw [rangeValues, dif_neg (by norm_num : ¬ ((0:ℚ) < -2)),
        dif_pos (by norm_num : (-2:ℚ) < 0)]]
    repeat (rw [ratSeqDown]; norm_num)

/-- Helper: concrete failing evaluation used by the C9 theorem and
its witness. -/
theorem evaluate_at_sign :
    MathEvaluator.evaluate .root (some "@") =
      .error "Failed to evaluate expression: unexpected character" := by
  have h0 : pyStrip "@" = "@" := by decide
  have h1 : trimChars "@".toList = ['@'] := by decide
  have h2 : parseFloat "@" = none := by
    simp +decide [parseFloat, h1]
  have h3 : processExpression .root "@" = "@" := by
    simp +decide [processExpression, replaceVariables, replaceVariablesAux]
  have h4 : safeEval .root "@" = .error "unexpected character" := by
    simp +decide [safeEval, tokenize]
  simp only [MathEvaluator.evaluate, h0, h2, h3, h4]
  rw [if_neg (by decide : ¬ ("@" = ""))]
  rfl

/-- C9: `MathEvaluator.evaluate` applied to the empty string or to a
`None` input returns `0.0` without raising, even though such an input
cannot be reduced to a number; an evaluation error is only ever
raised for a non-empty expression (and such expressions exist, e.g.
`"@"`). -/
theorem c9_evaluate_empty_input :
    (∀ ctx : EvaluationContext, MathEvaluator.evaluate ctx none = .ok 0)
    ∧ (∀ ctx : EvaluationContext, MathEvaluator.evaluate ctx (some "") = .ok 0)
    ∧ (∀ (ctx : EvaluationContext) (s e : String),
        MathEvaluator.evaluate ctx (some s) = .error e → s ≠ "")
    ∧ ("@" ≠ "" ∧ MathEvaluator.evaluate .root (some "@") =
        .error "Failed to evaluate expression: unexpected character") := by
  refine ⟨fun ctx => rfl, fun ctx => rfl, ?_, by decide, evaluate_at_sign⟩
  intro ctx s e herr hs
  subst hs
  simp [MathEvaluator.evaluate] at herr

/-- Witness for C9: the error case instantiated at the concrete
failing input `"@"`. -/
theorem c9_evaluate_empty_input_witness :
    MathEvaluator.evaluate .root (some "@") =
      .error "Failed to evaluate expression: unexpected character"
    ∧ "@" ≠ "" :=
  ⟨c9_evaluate_empty_input.2.2.2.2,
   c9_evaluate_empty_input.2.2.1 .root "@"
     "Failed to evaluate expression: unexpected character"
     c9_evaluate_empty_input.2.2.2.2⟩

/-- Helper: concrete successful evaluation of the literal `"1"`. -/
theorem evaluate_s1 : MathEvaluator.evaluate .root (some "1") = .ok 1 := by
  have h0 : pyStrip "1" = "1" := by decide
  have h1 : trimChars "1".toList = ['1'] := by decide
  simp +decide [MathEvaluator.evaluate, h0, parseFloat, h1, digitsVal]

/-- C3: `resolve` and `eval_value` are total and never raise on every
coordinate satisfying the data model (two value entries wherever the
code subscripts them): a named coordinate absent from the table, an
unknown system tag, and a relative coordinate with no cursor and no
values all resolve to the transformed origin, which is `(250, 250)`
at the default scale/canvas; `eval_value` returns the Math
Evaluator's result, falling back to a direct float parse and to `0.0`
on total failure. -/
theorem c3_resolver_total_and_fallbacks :
    (∀ (T : CoordinateTransformer) (trig : Trig) (ctx : EvaluationContext)
        (named : List (String × Point)) (coord : Coordinate) (pos : Option Point),
        accessesValues coord pos = false ∨ 2 ≤ coord.values.length →
        (CoordinateResolver.resolve T trig ctx named coord pos).isSome = true)
    ∧ (∀ (T : CoordinateTransformer) (trig : Trig) (ctx : EvaluationContext)
        (named : List (String × Point)) (coord : Coordinate) (pos : Option Point),
        coord.system = "named" →
        (match coord.name with
         | some n => named.lookup n = none
         | none => True) →
        CoordinateResolver.resolve T trig ctx named coord pos = some (T.tikz_to_svg 0 0))
    ∧ (∀ (T : CoordinateTransformer) (trig : Trig) (ctx : EvaluationContext)
        (named : List (String × Point)) (coord : Coordinate) (pos : Option Point),
        coord.system ≠ "cartesian" → coord.system ≠ "polar" → coord.system ≠ "named" →
        coord.system ≠ "relative" →
        CoordinateResolver.resolve T trig ctx named coord pos = some (T.tikz_to_svg 0 0))
    ∧ (∀ (T : CoordinateTransformer) (trig : Trig) (ctx : EvaluationContext)
        (named : List (String × Point)) (coord : Coordinate),
        coord.system = "relative" → coord.values = [] →
        CoordinateResolver.resolve T trig ctx named coord none = some (T.tikz_to_svg 0 0))
    ∧ CoordinateTransformer.default.tikz_to_svg 0 0 = (250, 250)
    ∧ (∀ (ctx : EvaluationContext) (s : String) (q : ℚ),
        MathEvaluator.evaluate ctx (some s) = .ok q →
        CoordinateResolver.eval_value ctx (.str s) = q)
    ∧ (∀ (ctx : EvaluationContext) (s e : String),
        MathEvaluator.evaluate ctx (some s) = .error e →
        CoordinateResolver.eval_value ctx (.str s) = (parseFloat s).getD 0) := by
  refine ⟨?_, ?_, ?_, ?_, ?_, ?_, ?_⟩
  · intro T trig ctx named coord pos h
    have hget : 2 ≤ coord.values.length →
        ∃ v0 v1, coord.values[0]? = some v0 ∧ coord.values[1]? = some v1 := by
      intro hlen
      match hv : coord.values with
      | v0 :: v1 :: _ => exact ⟨v0, v1, by simp, by simp⟩
      | [] => simp [hv] at hlen
      | [v] => simp [hv] at hlen
    unfold CoordinateResolver.resolve
    split_ifs with h1 h2 h3 h4
    · have hlen : 2 ≤ coord.values.length := by
        rcases h with h | h
        · rw [accessesValues.eq_def, if_pos h1] at h
          exact absurd h (by simp)
        · exact h
      obtain ⟨v0, v1, hv0, hv1⟩ := hget hlen
      simp [CoordinateResolver.resolveCartesian, hv0, hv1]
    · have hlen : 2 ≤ coord.values.length := by
        rcases h with h | h
        · rw [accessesValues.eq_def, if_neg h1, if_pos h2] at h
          exact absurd h (by simp)
        · exact h
      obtain ⟨v0, v1, hv0, hv1⟩ := hget hlen
      simp [CoordinateResolver.resolvePolar, hv0, hv1]
    · unfold CoordinateResolver.resolveNamed
      cases coord.name with
      | none => simp
      | some n => cases hn : named.lookup n <;> simp [hn]
    · unfold CoordinateResolver.resolveRelative
      cases pos with
      | some cp =>
        by_cases hc : coord.modifiers.inner_system.getD "cartesian" = "cartesian"
        · have hlen : 2 ≤ coord.values.length := by
            rcases h with h | h
            · rw [accessesValues.eq_def, if_neg h1, if_neg h2, if_neg h3, if_pos h4] at h
              simp [hc] at h
            · exact h
          obtain ⟨v0, v1, hv0, hv1⟩ := hget hlen
          simp [hc, hv0, hv1]
        · by_cases hp : coord.modifiers.inner_system.getD "cartesian" = "polar"
          · have hlen : 2 ≤ coord.values.length := by
              rcases h with h | h
              · rw [accessesValues.eq_def, if_neg h1, if_neg h2, if_neg h3, if_pos h4] at h
                simp [hc, hp] at h
              · exact h
            obtain ⟨v0, v1, hv0, hv1⟩ := hget hlen
            simp [hc, hp, hv0, hv1]
          · simp [hc, hp]
      | none =>
        by_cases hv : coord.values = []
        · simp [hv]
        · have hlen : 2 ≤ coord.values.length := by
            rcases h with h | h
            · rw [accessesValues.eq_def, if_neg h1, if_neg h2, if_neg h3, if_pos h4] at h
              simp [hv] at h
            · exact h
          obtain ⟨v0, v1, hv0, hv1⟩ := hget hlen
          simp [hv, hv0, hv1]
    · simp
  · intro T trig ctx named coord pos hsys hname
    unfold CoordinateResolver.resolve
    rw [if_neg (by rw [hsys]; decide), if_neg (by rw [hsys]; decide), if_pos hsys]
    unfold CoordinateResolver.resolveNamed
    cases hn : coord.name with
    | none => rfl
    | some n =>
      rw [hn] at hname
      simp only [hname]
  · intro T trig ctx named coord pos h1 h2 h3 h4
    unfold CoordinateResolver.resolve
    rw [if_neg h1, if_neg h2, if_neg h3, if_neg h4]
  · intro T trig ctx named coord hsys hvals
    unfold CoordinateResolver.resolve
    rw [if_neg (by rw [hsys]; decide), if_neg (by rw [hsys]; decide),
      if_neg (by rw [hsys]; decide), if_pos hsys]
    unfold CoordinateResolver.resolveRelative
    simp [hvals]
  · norm_num [CoordinateTransformer.default, CoordinateTransformer.tikz_to_svg]
  · intro ctx s q hq
    unfold CoordinateResolver.eval_value
    dsimp only
    rw [hq]
  · intro ctx s e he
    unfold CoordinateResolver.eval_value
    dsimp only
    rw [he]
    cases hp : parseFloat s <;> simp [hp]

/-- Witness for C3: the totality and fallback statements applied at
concrete coordinates (a well-formed cartesian coordinate, an absent
named coordinate, a valueless relative coordinate with no cursor, and
a literal expression). -/
theorem c3_resolver_total_and_fallbacks_witness :
    (CoordinateResolver.resolve .default trigZero .root []
      { system := "cartesian", values := [.num 1, .num 2] } none).isSome = true
    ∧ CoordinateResolver.resolve .default trigZero .root []
        { system := "named", name := some "A" } none =
      some (CoordinateTransformer.default.tikz_to_svg 0 0)
    ∧ CoordinateResolver.resolve .default trigZero .root []
        { system := "relative" } none =
      some (CoordinateTransformer.default.tikz_to_svg 0 0)
    ∧ CoordinateResolver.eval_value .root (.str "1") = 1 :=
  ⟨c3_resolver_total_and_fallbacks.1 .default trigZero .root []
      { system := "cartesian", values := [.num 1, .num 2] } none (Or.inr (by decide)),
   c3_resolver_total_and_fallbacks.2.1 .default trigZero .root []
      { system := "named", name := some "A" } none rfl (by simp),
   c3_resolver_total_and_fallbacks.2.2.2.1 .default trigZero .root []
      { system := "relative" } rfl rfl,
   c3_resolver_total_and_fallbacks.2.2.2.2.2.1 .root "1" 1 evaluate_s1⟩

/-- Helper: concrete successful evaluation of the literal `"0"`. -/
theorem evaluate_s0 : MathEvaluator.evaluate .root (some "0") = .ok 0 := by
  have h0 : pyStrip "0" = "0" := by decide
  have h1 : trimChars "0".toList = ['0'] := by decide
  simp +decide [MathEvaluator.evaluate, h0, parseFloat, h1, digitsVal]

theorem eval_value_root_s0 : CoordinateResolver.eval_value .root (.str "0") = 0 := by
  unfold CoordinateResolver.eval_value
  dsimp only
  rw [evaluate_s0]

theorem eval_value_root_s1 : CoordinateResolver.eval_value .root (.str "1") = 1 := by
  unfold CoordinateResolver.eval_value
  dsimp only
  rw [evaluate_s1]

/-- Concrete coordinates of the relative-operator scenarios, with the
raw value tokens kept as strings the way the parser stores them. -/
def coordCart00 : Coordinate :=
  { system := "cartesian", values := [.str "0", .str "0"] }

def relPlusPlus10 : Coordinate :=
  { system := "relative", values := [.str "1", .str "0"],
    modifiers := { operator := some "++" } }

def relPlusPlus01 : Coordinate :=
  { system := "relative", values := [.str "0", .str "1"],
    modifiers := { operator := some "++" } }

def relPlus10 : Coordinate :=
  { system := "relative", values := [.str "1", .str "0"],
    modifiers := { operator := some "+" } }

def relPlus01 : Coordinate :=
  { system := "relative", values := [.str "0", .str "1"],
    modifiers := { operator := some "+" } }

/-- Path `(0,0) -- ++(1,0) -- ++(0,1)`. -/
def pathPlusPlus : Path :=
  { segments := [
      { operation := .op "start", destination := some coordCart00 },
      { operation := .op "--", destination := some relPlusPlus10 },
      { operation := .op "--", destination := some relPlusPlus01 }] }

/-- Path `(0,0) -- +(1,0) -- +(0,1)`. -/
def pathPlus : Path :=
  { segments := [
      { operation := .op "start", destination := some coordCart00 },
      { operation := .op "--", destination := some relPlus10 },
      { operation := .op "--", destination := some relPlus01 }] }

/-- Helper: relative-cartesian resolution at the default transformer,
for arbitrary operator modifier (the operator does not change the
resolved point). -/
theorem resolve_rel_gen (trig : Trig) (op : Option String) (sx sy : String)
    (vx vy : ℚ) (hx : CoordinateResolver.eval_value .root (.str sx) = vx)
    (hy : CoordinateResolver.eval_value .root (.str sy) = vy) (c : Point) :
    CoordinateResolver.resolve .default trig .root []
      { system := "relative", values := [.str sx, .str sy],
        modifiers := { operator := op } } (some c) =
      some (c.1 + vx * (567/20), c.2 + (-vy) * (567/20)) := by
  unfold CoordinateResolver.resolve CoordinateResolver.resolveRelative
  simp +decide [hx, hy, CoordinateTransformer.default]

/-- Helper: the start coordinate of the scenarios. -/
theorem resolve_cart00 (trig : Trig) :
    CoordinateResolver.resolve .default trig .root [] coordCart00 none =
      some (250, 250) := by
  unfold coordCart00 CoordinateResolver.resolve CoordinateResolver.resolveCartesian
  simp +decide [eval_value_root_s0, CoordinateTransformer.tikz_to_svg,
    CoordinateTransformer.default]

/-- C1: after a destination segment whose coordinate is
relative-system with operator modifier `+`, `render_path` leaves the
cursor unchanged; every other destination segment (missing operator
and `++` included) sets the cursor to the resolved point.  On
`(0,0) -- ++(1,0) -- ++(0,1)` the final cursor is the transform of
`(1,1)`; on `(0,0) -- +(1,0) -- +(0,1)` the second `+` offset is
computed from `(0,0)` again and the final cursor is the transform of
`(0,0)`. -/
theorem c1_relative_operator_cursor :
    (∀ (dest : Coordinate) (resolved : Point) (cp : Option Point),
        dest.modifiers.operator = none ∨ dest.modifiers.operator = some "+"
          ∨ dest.modifiers.operator = some "++" →
        updateCursor dest resolved cp =
          if dest.system = "relative" ∧ dest.modifiers.operator = some "+" then cp
          else some resolved)
    ∧ (∀ trig : Trig, render_path .default trig .root [] pathPlusPlus =
        some ([.M 250 250, .L (5567/20) 250, .L (5567/20) (4433/20)],
          some (CoordinateTransformer.default.tikz_to_svg 1 1)))
    ∧ (∀ trig : Trig, render_path .default trig .root [] pathPlus =
        some ([.M 250 250, .L (5567/20) 250, .L 250 (4433/20)],
          some (CoordinateTransformer.default.tikz_to_svg 0 0))) := by
  refine ⟨?_, ?_, ?_⟩
  · intro dest resolved cp hop
    unfold updateCursor
    by_cases hrel : dest.system = "relative"
    · rw [if_pos hrel]
      rcases hop with h | h | h <;> rw [h] <;> simp +decide [hrel, h]
    · rw [if_neg hrel]
      rw [if_neg (by exact fun hc => hrel hc.1)]
  · intro trig
    have L1 := resolve_cart00 trig
    have L2 : CoordinateResolver.resolve .default trig .root [] relPlusPlus10
        (some (250, 250)) = some (5567/20, 250) := by
      have h := resolve_rel_gen trig (some "++") "1" "0" 1 0 eval_value_root_s1
        eval_value_root_s0 (250, 250)
      norm_num at h
      exact h
    have L3 : CoordinateResolver.resolve .default trig .root [] relPlusPlus01
        (some (5567/20, 250)) = some (5567/20, 4433/20) := by
      have h := resolve_rel_gen trig (some "++") "0" "1" 0 1 eval_value_root_s0
        eval_value_root_s1 (5567/20, 250)
      norm_num at h
      exact h
    have hs1 : coordCart00.system = "cartesian" := rfl
    have hs2 : relPlusPlus10.system = "relative" := rfl
    have hs3 : relPlusPlus01.system = "relative" := rfl
    have hop2 : relPlusPlus10.modifiers.operator = some "++" := rfl
    have hop3 : relPlusPlus01.modifiers.operator = some "++" := rfl
    simp +decide [render_path, path_walk, pathPlusPlus, L1, L2, L3, destCommands,
      updateCursor, hs1, hs2, hs3, hop2, hop3]
    norm_num [CoordinateTransformer.tikz_to_svg, CoordinateTransformer.default]
  · intro trig
    have L1 := resolve_cart00 trig
    have L2 : CoordinateResolver.resolve .default trig .root [] relPlus10
        (some (250, 250)) = some (5567/20, 250) := by
      have h := resolve_rel_gen trig (some "+") "1" "0" 1 0 eval_value_root_s1
        eval_value_root_s0 (250, 250)
      norm_num at h
      exact h
    have L3 : CoordinateResolver.resolve .default trig .root [] relPlus01
        (some (250, 250)) = some (250, 4433/20) := by
      have h := resolve_rel_gen trig (some "+") "0" "1" 0 1 eval_value_root_s0
        eval_value_root_s1 (250, 250)
      norm_num at h
      exact h
    have hs1 : coordCart00.system = "cartesian" := rfl
    have hs2 : relPlus10.system = "relative" := rfl
    have hs3 : relPlus01.system = "relative" := rfl
    have hop2 : relPlus10.modifiers.operator = some "+" := rfl
    have hop3 : relPlus01.modifiers.operator = some "+" := rfl
    simp +decide [render_path, path_walk, pathPlus, L1, L2, L3, destCommands,
      updateCursor, hs1, hs2, hs3, hop2, hop3]
    norm_num [CoordinateTransformer.tikz_to_svg, CoordinateTransformer.default]

/-- Witness for C1: the cursor rule applied to the concrete `+` and
`++` coordinates. -/
theorem c1_relative_operator_cursor_witness :
    updateCursor relPlus10 (1, 2) (some (3, 4)) = some (3, 4)
    ∧ updateCursor relPlusPlus10 (1, 2) (some (3, 4)) = some (1, 2) :=
  ⟨(c1_relative_operator_cursor.1 relPlus10 (1, 2) (some (3, 4))
      (Or.inr (Or.inl rfl))).trans (by simp +decide [relPlus10]),
   (c1_relative_operator_cursor.1 relPlusPlus10 (1, 2) (some (3, 4))
      (Or.inr (Or.inr rfl))).trans (by simp +decide [relPlusPlus10])⟩

/-- Concrete circle-with-destination path that starts with no cursor. -/
def coordCart23 : Coordinate :=
  { system := "cartesian", values := [.num 2, .num 3] }

def circlePathNoCursor : Path :=
  { segments := [
      { operation := .circle { radius := some (.num 1) },
        destination := some coordCart23 }] }

/-- Counterexample raw statement for C7: in a path whose first segment
is a circle operation with an explicit destination coordinate, the
code centers the circle at the transformed origin (no cursor exists
yet), not at the resolved destination, so the claim "the circle's
center is the resolved destination if a destination coordinate is
given" fails. -/
theorem c7_circle_center_counterexample :
    render_path .default trigZero .root [] circlePathNoCursor =
      some (render_circle_as_path (250, 250) (567/20), some (250, 250))
    ∧ CoordinateResolver.resolve .default trigZero .root [] coordCart23 none =
      some (6134/20, 3299/20)
    ∧ ((250 : ℚ), (250 : ℚ)) ≠ ((6134/20 : ℚ), (3299/20 : ℚ)) := by
  refine ⟨?_, ?_, by norm_num⟩
  · have horigin : CoordinateTransformer.default.tikz_to_svg 0 0 = (250, 250) := by
      norm_num [CoordinateTransformer.default, CoordinateTransformer.tikz_to_svg]
    simp +decide [render_path, path_walk, circlePathNoCursor, circle_step, horigin,
      CoordinateResolver.eval_value, CoordinateTransformer.default]
    norm_num [CoordinateTransformer.tikz_to_svg]
  · unfold coordCart23 CoordinateResolver.resolve CoordinateResolver.resolveCartesian
    simp +decide [CoordinateResolver.eval_value, CoordinateTransformer.tikz_to_svg,
      CoordinateTransformer.default]
    norm_num

/-- C7 as amended: the circle's center is the resolved destination if
a destination is given AND a cursor exists, else the cursor if one
exists, else the transformed origin; the emission is a move plus two
large-arc arcs of the evaluated, scale-converted radius, and the
cursor becomes the center.  Stated against the path walker shared by
`render_path` and `convert_path`. -/
theorem c7_circle_amended (T : CoordinateTransformer) (trig : Trig)
    (ctx : EvaluationContext) (named : List (String × Point)) (spec : CircleSpec)
    (dest : Option Coordinate) (cp : Option Point) (segRest : List PathSegment)
    (acc : List PathCmd) :
    path_walk T trig ctx named (destCommands T)
        ({ operation := .circle spec, destination := dest } :: segRest) acc cp =
      match
        (match cp, dest with
         | some c, some d => CoordinateResolver.resolve T trig ctx named d (some c)
         | some c, none => some c
         | none, _ => some (T.tikz_to_svg 0 0)) with
      | none => none
      | some center =>
        path_walk T trig ctx named (destCommands T) segRest
          (acc ++ render_circle_as_path center
            (CoordinateResolver.eval_value ctx (spec.radius.getD (.num 1)) * T.scale))
          (some center) := by
  show (match circle_step T trig ctx named spec dest cp with
        | none => none
        | some (cmds, center) =>
          path_walk T trig ctx named (destCommands T) segRest (acc ++ cmds) (some center)) = _
  unfold circle_step
  cases cp with
  | none =>
    cases dest <;> dsimp only
  | some c =>
    cases dest with
    | none => dsimp only
    | some d =>
      dsimp only
      cases CoordinateResolver.resolve T trig ctx named d (some c) <;> dsimp only

/-- Trig interpretation agreeing with the true degree cosine and sine
at the two angles the arc scenario samples: cos 0 = 1, cos 90 = 0,
sin 0 = 0, sin 90 = 1. -/
def trigRight : Trig :=
  ⟨fun θ => if θ = 0 then 1 else 0, fun θ => if θ = 90 then 1 else 0⟩

/-- Arc spec `(0:90:1)` in angles format. -/
def arcSpec090 : ArcSpec :=
  { format := some "angles", start_angle := some (.num 0),
    end_angle := some (.num 90), radius := some (.num 1) }

/-- C5 evaluated at the failing input: with no cursor the arc emits
nothing (as the claim says), but with cursor `(0,0)` at the default
scale the emitted endpoint is
`cursor + radius*scale^2*(cos 90 - cos 0, -(sin 90 - sin 0))`
= `(-803.7225, -803.7225)`, not the claimed
`cursor + radius*scale*(...) = (-28.35, -28.35)`: the code multiplies
the chord delta by the scale a second time after the radius was
already converted to render units (the options-format branch a few
lines below multiplies only once, and the emitted `A` command's own
radius `28.35` is inconsistent with an endpoint chord of length
`803.7225 * sqrt 2`). -/
theorem c5_arc_endpoint_double_scale :
    render_arc .default trigRight .root arcSpec090 none = none
    ∧ render_arc .default trigRight .root arcSpec090 (some (0, 0)) =
      some (.A (567/20) (567/20) 0 0 1 (-(321489/400)) (-(321489/400)))
    ∧ (0 : ℚ) + ((567/20) * (trigRight.cosd 90 - trigRight.cosd 0)) = -(567/20)
    ∧ ((-(321489/400) : ℚ)) ≠ -(567/20) := by
  refine ⟨?_, ?_, ?_, by norm_num⟩
  · simp [render_arc, arcSpec090, ArcSpec.isEmpty]
  · simp +decide [render_arc, arcSpec090, ArcSpec.isEmpty, trigRight,
      CoordinateResolver.eval_value, CoordinateTransformer.default]
    norm_num
  · simp +decide [trigRight]

/-- Helper: the k-th generated grid position is `start + k * step`,
so consecutive grid lines are spaced exactly `step` apart. -/
theorem ratSeqUp_pos (step : ℚ) (h : 0 < step) (stop : ℚ) :
    ∀ (k : ℕ) (cur : ℚ), k < (ratSeqUp step h stop cur).length →
      (ratSeqUp step h stop cur)[k]? = some (cur + k * step) := by
  intro k
  induction k with
  | zero =>
    intro cur hk
    rw [ratSeqUp] at hk ⊢
    by_cases hc : cur ≤ stop
    · simp [hc]
    · rw [if_neg hc] at hk
      simp at hk
  | succ n ih =>
    intro cur hk
    rw [ratSeqUp] at hk ⊢
    by_cases hc : cur ≤ stop
    · rw [if_pos hc] at hk ⊢
      simp only [List.getElem?_cons_succ]
      rw [ih (cur + step) (by simpa using hk)]
      push_cast
      ring_nf
    · rw [if_neg hc] at hk
      simp at hk

/-- Helper: the two-line fixed-step sequence of the 50x50 scenario. -/
theorem ratSeqUp_step28 (h : 0 < (567/20 : ℚ)) :
    ratSeqUp (567/20) h (5001/100) 0 = [0, 567/20] := by
  rw [ratSeqUp]
  norm_num
  rw [ratSeqUp]
  norm_num
  rw [ratSeqUp]
  norm_num

/-- Helper: the single-line code-step sequence of the 50x50 scenario. -/
theorem ratSeqUp_step803 (h : 0 < (321489/400 : ℚ)) :
    ratSeqUp (321489/400) h (5001/100) 0 = [0] := by
  rw [ratSeqUp]
  norm_num
  rw [ratSeqUp]
  norm_num

/-- Counterexample raw statement for C6: at the default scale 28.35
the grid from render point `(0,0)` to `(50,50)` is emitted with step
`28.35 * 28.35 = 803.7225` (one vertical and one horizontal line),
while the spec's fixed scale-independent step of `28.35`
(`render_grid_spec_fixed_step`) would give two lines each way: the
emitted spacing depends on the document scale. -/
theorem c6_grid_step_counterexample :
    render_grid .default 50 50 (some (0, 0)) =
      [.M 0 0, .L 0 50, .M 0 0, .L 50 0]
    ∧ render_grid_spec_fixed_step .default 50 50 (some (0, 0)) =
      [.M 0 0, .L 0 50, .M (567/20) 0, .L (567/20) 50,
       .M 0 0, .L 50 0, .M 0 (567/20), .L 50 (567/20)]
    ∧ render_grid .default 50 50 (some (0, 0)) ≠
      render_grid_spec_fixed_step .default 50 50 (some (0, 0)) := by
  have h1 : render_grid .default 50 50 (some (0, 0)) =
      [.M 0 0, .L 0 50, .M 0 0, .L 50 0] := by
    rw [render_grid]
    rw [show CoordinateTransformer.default.scale * (567/20) = 321489/400 from by
      norm_num [CoordinateTransformer.default]]
    rw [dif_pos (by norm_num : (0:ℚ) < 321489/400)]
    norm_num
    rw [ratSeqUp_step803]
    simp [vlineCmds, hlineCmds]
  have h2 : render_grid_spec_fixed_step .default 50 50 (some (0, 0)) =
      [.M 0 0, .L 0 50, .M (567/20) 0, .L (567/20) 50,
       .M 0 0, .L 50 0, .M 0 (567/20), .L 50 (567/20)] := by
    rw [render_grid_spec_fixed_step]
    rw [dif_pos (by norm_num : (0:ℚ) < 567/20)]
    norm_num
    rw [ratSeqUp_step28]
    simp [vlineCmds, hlineCmds]
  refine ⟨h1, h2, ?_⟩
  rw [h1, h2]
  simp

/-- C6 as amended: with no cursor the grid emits nothing; with a
cursor (and a positive scale, where the Python while-loop terminates)
the emission is the vertical move/line pairs followed by the
horizontal ones over the bounding box of cursor and destination, the
k-th line position being `start + k * (scale * 28.35)` — spacing
proportional to the document scale, not independent of it. -/
theorem c6_grid_amended :
    (∀ (T : CoordinateTransformer) (x y : ℚ), render_grid T x y none = [])
    ∧ (∀ (T : CoordinateTransformer) (x y : ℚ) (cp : Point)
        (h : 0 < T.scale * (567/20)),
        render_grid T x y (some cp) =
          vlineCmds (min cp.2 y) (max cp.2 y)
            (ratSeqUp (T.scale * (567/20)) h (max cp.1 x + 1/100) (min cp.1 x)) ++
          hlineCmds (min cp.1 x) (max cp.1 x)
            (ratSeqUp (T.scale * (567/20)) h (max cp.2 y + 1/100) (min cp.2 y)))
    ∧ (∀ (step : ℚ) (h : 0 < step) (stop cur : ℚ) (k : ℕ),
        k < (ratSeqUp step h stop cur).length →
        (ratSeqUp step h stop cur)[k]? = some (cur + k * step)) := by
  refine ⟨fun T x y => rfl, ?_, fun step h stop cur k hk => ratSeqUp_pos step h stop k cur hk⟩
  intro T x y cp h
  rw [render_grid]
  rw [dif_pos h]

/-- Witness for C6: the amended grid equation and the spacing formula
at the default transformer and the second generated line. -/
theorem c6_grid_amended_witness :
    (0 : ℚ) < CoordinateTransformer.default.scale * (567/20)
    ∧ render_grid .default 50 50 (some (0, 0)) =
      vlineCmds (min (0:ℚ) 50) (max (0:ℚ) 50)
        (ratSeqUp (CoordinateTransformer.default.scale * (567/20))
          (by norm_num [CoordinateTransformer.default])
          (max (0:ℚ) 50 + 1/100) (min (0:ℚ) 50)) ++
      hlineCmds (min (0:ℚ) 50) (max (0:ℚ) 50)
        (ratSeqUp (CoordinateTransformer.default.scale * (567/20))
          (by norm_num [CoordinateTransformer.default])
          (max (0:ℚ) 50 + 1/100) (min (0:ℚ) 50))
    ∧ 1 < (ratSeqUp (567/20) (by norm_num) (5001/100) 0).length
    ∧ (ratSeqUp (567/20) (by norm_num : (0:ℚ) < 567/20) (5001/100) 0)[1]? =
      some (0 + 1 * (567/20)) := by
  refine ⟨by norm_num [CoordinateTransformer.default], ?_, ?_, ?_⟩
  · exact c6_grid_amended.2.1 .default 50 50 (0, 0)
      (by norm_num [CoordinateTransformer.default])
  · rw [ratSeqUp_step28]
    norm_num
  · exact c6_grid_amended.2.2 (567/20) (by norm_num) (5001/100) 0 1
      (by rw [ratSeqUp_step28]; norm_num)

/-- Helper: the `finally` restore — whatever the body statements do,
a completed foreach loop hands back exactly the saved pre-loop
context. -/
theorem foreach_iter_restores (T : CoordinateTransformer) (trig : Trig)
    (loopVars : List String) (clause : Option (String × String)) (body : List Stmt) :
    ∀ (values : List PyVal) (st : ConvState) (els : List Element) (stFinal : ConvState),
      foreach_iter T trig loopVars clause body values st = some (els, stFinal) →
      stFinal.context = st.context := by
  intro values
  induction values with
  | nil =>
    intro st els stF h
    rw [foreach_iter] at h
    injection h with h2
    injection h2 with ha hb
    rw [← hb]
  | cons v rest ih =>
    intro st els stF h
    rw [foreach_iter] at h
    cases hv : visit_stmts T trig body
        { st with context := iter_init_context loopVars clause st.context v } with
    | none =>
      rw [hv] at h
      exact absurd h (by simp)
    | some pr =>
      rw [hv] at h
      obtain ⟨els1, st1⟩ := pr
      dsimp only at h
      cases hr : foreach_iter T trig loopVars clause body rest
          { st1 with context := st.context } with
      | none =>
        rw [hr] at h
        exact absurd h (by simp)
      | some pr2 =>
        rw [hr] at h
        obtain ⟨els2, st2⟩ := pr2
        dsimp only at h
        injection h with h2
        injection h2 with ha hb
        rw [← hb]
        exact ih { st1 with context := st.context } els2 st2 hr

/-- Helper: `set_variable` writes only the innermost map. -/
theorem set_variable_parent (ctx : EvaluationContext) (n : String) (v : PyVal) :
    (ctx.set_variable n v).parent = ctx.parent := by
  cases ctx
  rfl

/-- Helper: positional pair binding writes only the innermost map. -/
theorem bindPairs_parent (pc : EvaluationContext) (loopVars : List String)
    (elems : List String) :
    ∀ ctx : EvaluationContext, (bindPairs pc loopVars elems ctx).parent = ctx.parent := by
  unfold bindPairs
  generalize loopVars.zip elems = l
  induction l with
  | nil => intro ctx; rfl
  | cons pe rest ih =>
    intro ctx
    rw [List.foldl_cons]
    rw [ih (ctx.set_variable pe.1 (safe_evaluate pc (.str pe.2)))]
    exact set_variable_parent ctx pe.1 _

/-- Helper: loop-variable binding writes only the innermost map. -/
theorem set_loop_variables_parent (loopVars : List String) (v : PyVal)
    (pc ctx : EvaluationContext) :
    (set_loop_variables loopVars v pc ctx).parent = ctx.parent := by
  unfold set_loop_variables
  split_ifs with h1 h2
  · exact set_variable_parent ctx _ _
  · cases v <;> first
      | rfl
      | exact bindPairs_parent pc loopVars _ ctx
  · rfl

/-- Helper: the evaluate clause writes only the innermost map. -/
theorem apply_evaluate_clause_parent (clause : Option (String × String))
    (ctx : EvaluationContext) :
    (apply_evaluate_clause clause ctx).parent = ctx.parent := by
  unfold apply_evaluate_clause
  cases clause with
  | none => rfl
  | some te =>
    dsimp only
    cases hev : MathEvaluator.evaluate ctx (some te.2) with
    | ok q => exact set_variable_parent ctx te.1 _
    | error e => rfl

/-- Helper: an iteration's initial context is a child of the
pre-iteration context. -/
theorem iter_init_context_parent (loopVars : List String)
    (clause : Option (String × String)) (pc : EvaluationContext) (v : PyVal) :
    (iter_init_context loopVars clause pc v).parent = some pc := by
  unfold iter_init_context
  rw [apply_evaluate_clause_parent, set_loop_variables_parent]
  rfl

/-- Helper: lookup through one chain link. -/
theorem get_variable_step (ctx p : EvaluationContext) (n : String)
    (hp : ctx.parent = some p) :
    ctx.get_variable n =
      (match ctx.vars.lookup (EvaluationContext.normalizeName n) with
       | some w => some w
       | none => p.get_variable (EvaluationContext.normalizeName n)) := by
  cases ctx with
  | mk vs pp =>
    simp only [EvaluationContext.parent] at hp
    subst hp
    rw [EvaluationContext.get_variable]
    simp only [EvaluationContext.vars]

/-- C2: each foreach iteration starts in a fresh child context whose
parent is the pre-loop context; after the loop completes the state's
context is exactly the pre-loop context (so nothing bound inside an
iteration — loop variables or evaluate targets — leaks to the
parent); inside an iteration, a name not bound in the child's own map
resolves through `get_variable` to the parent's binding, and a name
bound in the child shadows it. -/
theorem c2_foreach_context_isolation :
    (∀ (T : CoordinateTransformer) (trig : Trig) (loopVars : List String)
        (clause : Option (String × String)) (body : List Stmt) (values : List PyVal)
        (st : ConvState) (els : List Element) (stFinal : ConvState),
        foreach_iter T trig loopVars clause body values st = some (els, stFinal) →
        stFinal.context = st.context)
    ∧ (∀ (loopVars : List String) (clause : Option (String × String))
        (pc : EvaluationContext) (v : PyVal),
        (iter_init_context loopVars clause pc v).parent = some pc)
    ∧ (∀ (loopVars : List String) (clause : Option (String × String))
        (pc : EvaluationContext) (v : PyVal) (n : String),
        (iter_init_context loopVars clause pc v).vars.lookup
          (EvaluationContext.normalizeName n) = none →
        (iter_init_context loopVars clause pc v).get_variable n =
          pc.get_variable (EvaluationContext.normalizeName n))
    ∧ (∀ (loopVars : List String) (clause : Option (String × String))
        (pc : EvaluationContext) (v : PyVal) (n : String) (w : PyVal),
        (iter_init_context loopVars clause pc v).vars.lookup
          (EvaluationContext.normalizeName n) = some w →
        (iter_init_context loopVars clause pc v).get_variable n = some w) := by
  refine ⟨fun T trig lv cl b vs st els stF h =>
      foreach_iter_restores T trig lv cl b vs st els stF h,
    iter_init_context_parent, ?_, ?_⟩
  · intro lv cl pc v n hnone
    rw [get_variable_step (iter_init_context lv cl pc v) pc n
      (iter_init_context_parent lv cl pc v)]
    rw [hnone]
  · intro lv cl pc v n w hsome
    rw [get_variable_step (iter_init_context lv cl pc v) pc n
      (iter_init_context_parent lv cl pc v)]
    rw [hsome]

theorem parseFloat_s5 : parseFloat "5" = some 5 := by
  have h1 : trimChars "5".toList = ['5'] := by decide
  simp +decide [parseFloat, h1, digitsVal]

theorem evaluate_s5 (ctx : EvaluationContext) :
    MathEvaluator.evaluate ctx (some "5") = .ok 5 := by
  have h0 : pyStrip "5" = "5" := by decide
  simp +decide [MathEvaluator.evaluate, h0, parseFloat_s5]

/-- Helper: the concrete one-iteration loop of the C2 witness, a
macro definition in the body binding a variable in the child context. -/
theorem foreach_iter_c2_concrete :
    foreach_iter .default trigZero ["i"] none [.macroDef "x" "5"] [.num 1]
      { context := .root, named := [] } =
      some ([], { context := .root, named := [] }) := by
  rw [foreach_iter.eq_def]
  dsimp only
  rw [visit_stmts.eq_def]
  dsimp only
  rw [visit_stmt.eq_def]
  dsimp only
  rw [evaluate_s5]
  dsimp only
  rw [visit_stmts.eq_def]
  dsimp only
  rw [foreach_iter.eq_def]
  simp

/-- Witness for C2: the isolation statements at a concrete
one-variable loop whose body binds `x` in the child context; after
the loop the context is the untouched root, `x` resolves through the
child to the parent (absent), and the loop variable `i` is shadowed
in the child. -/
theorem c2_foreach_context_isolation_witness :
    foreach_iter .default trigZero ["i"] none [.macroDef "x" "5"] [.num 1]
      { context := .root, named := [] } =
      some ([], { context := .root, named := [] })
    ∧ ({ context := EvaluationContext.root, named := [] } : ConvState).context =
      ({ context := EvaluationContext.root, named := [] } : ConvState).context
    ∧ (iter_init_context ["i"] none .root (.num 1)).parent =
      some EvaluationContext.root
    ∧ (iter_init_context ["i"] none .root (.num 1)).get_variable "x" =
      EvaluationContext.root.get_variable (EvaluationContext.normalizeName "x")
    ∧ (iter_init_context ["i"] none .root (.num 1)).get_variable "i" =
      some (.num 1) := by
  refine ⟨foreach_iter_c2_concrete,
    c2_foreach_context_isolation.1 .default trigZero ["i"] none [.macroDef "x" "5"]
      [.num 1] { context := .root, named := [] } [] { context := .root, named := [] }
      foreach_iter_c2_concrete,
    c2_foreach_context_isolation.2.1 ["i"] none .root (.num 1), ?_, ?_⟩
  · refine c2_foreach_context_isolation.2.2.1 ["i"] none .root (.num 1) "x" ?_
    simp +decide [iter_init_context, apply_evaluate_clause, set_loop_variables,
      safe_evaluate, EvaluationContext.set_variable, EvaluationContext.create_child_context,
      EvaluationContext.normalizeName, EvaluationContext.vars]
  · refine c2_foreach_context_isolation.2.2.2 ["i"] none .root (.num 1) "i" (.num 1) ?_
    simp +decide [iter_init_context, apply_evaluate_clause, set_loop_variables,
      safe_evaluate, EvaluationContext.set_variable, EvaluationContext.create_child_context,
      EvaluationContext.normalizeName, EvaluationContext.vars]

/-- Helper: with several loop variables and a value that is not a
tuple/list, the binding step does nothing at all. -/
theorem set_loop_variables_nontuple (loopVars : List String) (v : PyVal)
    (pc ctx : EvaluationContext) (hlen : 1 < loopVars.length)
    (hseq : v.isSeq = false) :
    set_loop_variables loopVars v pc ctx = ctx := by
  unfold set_loop_variables
  rw [if_neg (by omega : ¬ loopVars.length = 1), if_pos hlen]
  cases v <;> first
  | rfl
  | simp [PyVal.isSeq] at hseq

/-- C10: in a foreach loop declaring more than one variable, an
iteration whose value is not a tuple or list binds no loop variable
at all and raises no error; the body statements of that iteration are
still visited (in a fresh child context with an empty local variable
map) and their fragments collected as usual. -/
theorem c10_foreach_multivar_nontuple :
    (∀ (loopVars : List String) (v : PyVal) (pc ctx : EvaluationContext),
        1 < loopVars.length → v.isSeq = false →
        set_loop_variables loopVars v pc ctx = ctx)
    ∧ (∀ (loopVars : List String) (v : PyVal) (pc : EvaluationContext),
        1 < loopVars.length → v.isSeq = false →
        (iter_init_context loopVars none pc v).vars = [])
    ∧ (∀ (T : CoordinateTransformer) (trig : Trig) (loopVars : List String) (v : PyVal)
        (body : List Stmt) (rest : List PyVal) (st : ConvState),
        1 < loopVars.length → v.isSeq = false →
        foreach_iter T trig loopVars none body (v :: rest) st =
          match visit_stmts T trig body
              { st with context := st.context.create_child_context } with
          | none => none
          | some (els1, st1) =>
            match foreach_iter T trig loopVars none body rest
                { st1 with context := st.context } with
            | none => none
            | some (els2, st2) => some (els1 ++ els2, st2)) := by
  refine ⟨set_loop_variables_nontuple, ?_, ?_⟩
  · intro lv v pc hlen hseq
    unfold iter_init_context apply_evaluate_clause
    dsimp only
    rw [set_loop_variables_nontuple lv v pc _ hlen hseq]
    rfl
  · intro T trig lv v body rest st hlen hseq
    rw [foreach_iter.eq_def]
    dsimp only
    rw [show iter_init_context lv none st.context v = st.context.create_child_context from by
      unfold iter_init_context apply_evaluate_clause
      dsimp only
      exact set_loop_variables_nontuple lv v st.context _ hlen hseq]

/-- Witness for C10: two loop variables and the scalar value `3` — no
binding happens, the iteration context's local map is empty, and the
loop equation holds for a one-statement body. -/
theorem c10_foreach_multivar_nontuple_witness :
    set_loop_variables ["x", "y"] (.num 3) .root .root = .root
    ∧ (iter_init_context ["x", "y"] none .root (.num 3)).vars = []
    ∧ foreach_iter .default trigZero ["x", "y"] none [.macroDef "z" "5"] [.num 3]
        { context := .root, named := [] } =
      match visit_stmts .default trigZero [.macroDef "z" "5"]
          { context := EvaluationContext.root.create_child_context, named := [] } with
      | none => none
      | some (els1, st1) =>
        match foreach_iter .default trigZero ["x", "y"] none [.macroDef "z" "5"] []
            { context := EvaluationContext.root, named := st1.named } with
        | none => none
        | some (els2, st2) => some (els1 ++ els2, st2) :=
  ⟨c10_foreach_multivar_nontuple.1 ["x", "y"] (.num 3) .root .root (by decide) rfl,
   c10_foreach_multivar_nontuple.2.1 ["x", "y"] (.num 3) .root (by decide) rfl,
   c10_foreach_multivar_nontuple.2.2 .default trigZero ["x", "y"] (.num 3)
     [.macroDef "z" "5"] [] { context := .root, named := [] } (by decide) rfl⟩

theorem hasDefsBlock_append (a b : List Element) :
    hasDefsBlock (a ++ b) = (hasDefsBlock a || hasDefsBlock b) := by
  simp [hasDefsBlock]

theorem visit_stmt_no_defs (T : CoordinateTransformer) (trig : Trig) :
    ∀ (s : Stmt) (st : ConvState) (els : List Element) (st2 : ConvState),
      visit_stmt T trig s st = some (els, st2) → hasDefsBlock els = false := by
  intro s st
  refine visit_stmt.induct T trig
    (fun s st => ∀ els st2, visit_stmt T trig s st = some (els, st2) →
      hasDefsBlock els = false)
    (fun lv cl b vs st => ∀ els st2, foreach_iter T trig lv cl b vs st = some (els, st2) →
      hasDefsBlock els = false)
    (fun l st => ∀ els st2, visit_stmts T trig l st = some (els, st2) →
      hasDefsBlock els = false)
    ?_ ?_ ?_ ?_ ?_ ?_ ?_ ?_ ?_ ?_ ?_ ?_ ?_ ?_ ?_ ?_ ?_ ?_ ?_ s st
  · intro c o p st1 hc els st2 h
    rw [visit_stmt, hc] at h
    exact absurd h (by simp)
  · intro c o p st1 cmds hc els st2 h
    rw [visit_stmt, hc] at h
    simp only [Option.some.injEq, Prod.mk.injEq] at h
    rw [← h.1]
    simp [hasDefsBlock]
  · intro n p t st1 pos hp els st2 h
    rw [visit_stmt.eq_def] at h
    dsimp only at h
    cases p with
    | none =>
      dsimp only at h
      simp only [Option.some.injEq, Prod.mk.injEq] at h
      rw [← h.1]
      simp [hasDefsBlock]
    | some q =>
      dsimp only at h
      cases hq : CoordinateResolver.resolve T trig st1.context.rootAncestor st1.named q none with
      | none =>
        rw [hq] at h
        exact absurd h (by simp)
      | some cp =>
        rw [hq] at h
        simp only [Option.some.injEq, Prod.mk.injEq] at h
        rw [← h.1]
        simp [hasDefsBlock]
  · intro n p t st1 pos cp hp els st2 h
    rw [visit_stmt.eq_def] at h
    dsimp only at h
    cases p with
    | none =>
      dsimp only at h
      simp only [Option.some.injEq, Prod.mk.injEq] at h
      rw [← h.1]
      simp [hasDefsBlock]
    | some q =>
      dsimp only at h
      cases hq : CoordinateResolver.resolve T trig st1.context.rootAncestor st1.named q none with
      | none =>
        rw [hq] at h
        exact absurd h (by simp)
      | some cp2 =>
        rw [hq] at h
        simp only [Option.some.injEq, Prod.mk.injEq] at h
        rw [← h.1]
        simp [hasDefsBlock]
  · intro n st1 d hd els st2 h
    rw [visit_stmt, hd] at h
    exact absurd h (by simp)
  · intro n st1 d cp hd els st2 h
    rw [visit_stmt, hd] at h
    simp only [Option.some.injEq, Prod.mk.injEq] at h
    rw [← h.1]
    simp [hasDefsBlock]
  · intro n st1 els st2 h
    rw [visit_stmt] at h
    simp only [Option.some.injEq, Prod.mk.injEq] at h
    rw [← h.1]
    simp [hasDefsBlock]
  · intro n b st1 els st2 h
    rw [visit_stmt] at h
    simp only [Option.some.injEq, Prod.mk.injEq] at h
    rw [← h.1]
    simp [hasDefsBlock]
  · intro stmts st1 hv ih els st2 h
    rw [visit_stmt] at h
    cases hv2 : visit_stmts T trig stmts st1 with
    | none =>
      rw [hv2] at h
      exact absurd h (by simp)
    | some pr =>
      obtain ⟨els1, stA⟩ := pr
      rw [hv2] at h
      simp only [Option.some.injEq, Prod.mk.injEq] at h
      rw [← h.1]
      by_cases he : els1.isEmpty <;> simp [he, hasDefsBlock]
  · intro stmts st1 els1 stA hv ih els st2 h
    rw [visit_stmt] at h
    cases hv2 : visit_stmts T trig stmts st1 with
    | none =>
      rw [hv2] at h
      exact absurd h (by simp)
    | some pr =>
      obtain ⟨elsA, stB⟩ := pr
      rw [hv2] at h
      simp only [Option.some.injEq, Prod.mk.injEq] at h
      rw [← h.1]
      by_cases he : elsA.isEmpty <;> simp [he, hasDefsBlock]
  · intro lv vs cl b st1 ih els st2 h
    rw [visit_stmt] at h
    exact ih els st2 h
  · intro lv cl b st1 els st2 h
    rw [foreach_iter.eq_def] at h
    dsimp only at h
    simp only [Option.some.injEq, Prod.mk.injEq] at h
    rw [← h.1]
    simp [hasDefsBlock]
  · intro lv cl b v rest st1 parentCtx childCtx hv ih els st2 h
    rw [foreach_iter.eq_def] at h
    dsimp only at h
    cases hv2 : visit_stmts T trig b
        { context := iter_init_context lv cl st1.context v, named := st1.named } with
    | none =>
      rw [hv2] at h
      exact absurd h (by simp)
    | some pr =>
      exact absurd (hv.symm.trans hv2) (by simp)
  · intro lv cl b v rest st1 parentCtx childCtx els1 stA hv hr ih ih2 els st2 h
    rw [foreach_iter.eq_def] at h
    dsimp only at h
    cases hv2 : visit_stmts T trig b
        { context := iter_init_context lv cl st1.context v, named := st1.named } with
    | none =>
      rw [hv2] at h
      exact absurd h (by simp)
    | some pr =>
      obtain ⟨elsA, stA2⟩ := pr
      rw [hv2] at h
      dsimp only at h
      have hsame := hv.symm.trans hv2
      simp only [Option.some.injEq, Prod.mk.injEq] at hsame
      obtain ⟨he1, hs1⟩ := hsame
      cases hr2 : foreach_iter T trig lv cl b rest
          { context := st1.context, named := stA2.named } with
      | none =>
        rw [hr2] at h
        exact absurd h (by simp)
      | some pr2 =>
        obtain ⟨elsB, stB2⟩ := pr2
        rw [hr2] at h
        simp only [Option.some.injEq, Prod.mk.injEq] at h
        rw [← h.1, hasDefsBlock_append]
        rw [ih elsA stA2 hv2]
        subst hs1
        rw [ih2 elsB stB2 hr2]
        rfl
  · intro lv cl b v rest st1 parentCtx childCtx els1 stA hv els2 stB hr ih ih2 els st2 h
    rw [foreach_iter.eq_def] at h
    dsimp only at h
    cases hv2 : visit_stmts T trig b
        { context := iter_init_context lv cl st1.context v, named := st1.named } with
    | none =>
      rw [hv2] at h
      exact absurd h (by simp)
    | some pr =>
      obtain ⟨elsA, stA2⟩ := pr
      rw [hv2] at h
      dsimp only at h
      have hsame := hv.symm.trans hv2
      simp only [Option.some.injEq, Prod.mk.injEq] at hsame
      obtain ⟨he1, hs1⟩ := hsame
      cases hr2 : foreach_iter T trig lv cl b rest
          { context := st1.context, named := stA2.named } with
      | none =>
        rw [hr2] at h
        exact absurd h (by simp)
      | some pr2 =>
        obtain ⟨elsB, stB2⟩ := pr2
        rw [hr2] at h
        simp only [Option.some.injEq, Prod.mk.injEq] at h
        rw [← h.1, hasDefsBlock_append]
        rw [ih elsA stA2 hv2]
        subst hs1
        rw [ih2 elsB stB2 hr2]
        rfl
  · intro st1 els st2 h
    rw [visit_stmts] at h
    simp only [Option.some.injEq, Prod.mk.injEq] at h
    rw [← h.1]
    simp [hasDefsBlock]
  · intro s1 rest st1 hv ih els st2 h
    rw [visit_stmts] at h
    cases hv2 : visit_stmt T trig s1 st1 with
    | none =>
      rw [hv2] at h
      exact absurd h (by simp)
    | some pr =>
      exact absurd (hv.symm.trans hv2) (by simp)
  · intro s1 rest st1 els1 stA hv hr ih ih2 els st2 h
    rw [visit_stmts] at h
    cases hv2 : visit_stmt T trig s1 st1 with
    | none =>
      rw [hv2] at h
      exact absurd h (by simp)
    | some pr =>
      obtain ⟨elsA, stA2⟩ := pr
      rw [hv2] at h
      dsimp only at h
      have hsame := hv.symm.trans hv2
      simp only [Option.some.injEq, Prod.mk.injEq] at hsame
      obtain ⟨he1, hs1⟩ := hsame
      cases hr2 : visit_stmts T trig rest stA2 with
      | none =>
        rw [hr2] at h
        exact absurd h (by simp)
      | some pr2 =>
        obtain ⟨elsB, stB2⟩ := pr2
        rw [hr2] at h
        simp only [Option.some.injEq, Prod.mk.injEq] at h
        rw [← h.1, hasDefsBlock_append]
        rw [ih elsA stA2 hv2]
        subst hs1
        rw [ih2 elsB stB2 hr2]
        rfl
  · intro s1 rest st1 els1 stA hv els2 stB hr ih ih2 els st2 h
    rw [visit_stmts] at h
    cases hv2 : visit_stmt T trig s1 st1 with
    | none =>
      rw [hv2] at h
      exact absurd h (by simp)
    | some pr =>
      obtain ⟨elsA, stA2⟩ := pr
      rw [hv2] at h
      dsimp only at h
      have hsame := hv.symm.trans hv2
      simp only [Option.some.injEq, Prod.mk.injEq] at hsame
      obtain ⟨he1, hs1⟩ := hsame
      cases hr2 : visit_stmts T trig rest stA2 with
      | none =>
        rw [hr2] at h
        exact absurd h (by simp)
      | some pr2 =>
        obtain ⟨elsB, stB2⟩ := pr2
        rw [hr2] at h
        simp only [Option.some.injEq, Prod.mk.injEq] at h
        rw [← h.1, hasDefsBlock_append]
        rw [ih elsA stA2 hv2]
        subst hs1
        rw [ih2 elsB stB2 hr2]
        rfl

/-- Helper: list version of the no-defs invariant. -/
theorem visit_stmts_no_defs (T : CoordinateTransformer) (trig : Trig) :
    ∀ (l : List Stmt) (st : ConvState) (els : List Element) (st2 : ConvState),
      visit_stmts T trig l st = some (els, st2) → hasDefsBlock els = false := by
  intro l
  induction l with
  | nil =>
    intro st els st2 h
    rw [visit_stmts] at h
    simp only [Option.some.injEq, Prod.mk.injEq] at h
    rw [← h.1]
    simp [hasDefsBlock]
  | cons s rest ih =>
    intro st els st2 h
    rw [visit_stmts] at h
    cases hv : visit_stmt T trig s st with
    | none =>
      rw [hv] at h
      exact absurd h (by simp)
    | some pr =>
      obtain ⟨els1, st1⟩ := pr
      rw [hv] at h
      dsimp only at h
      cases hr : visit_stmts T trig rest st1 with
      | none =>
        rw [hr] at h
        exact absurd h (by simp)
      | some pr2 =>
        obtain ⟨els2, st2b⟩ := pr2
        rw [hr] at h
        simp only [Option.some.injEq, Prod.mk.injEq] at h
        rw [← h.1, hasDefsBlock_append]
        rw [visit_stmt_no_defs T trig s st els1 st1 hv, ih st1 els2 st2b hr]
        rfl

/-- Draw statement with a directional arrow option and an empty path. -/
def arrowDrawStmt : Stmt := .draw "draw" [("arrow", .str "->")] { segments := [] }

/-- Picture whose only arrow use sits inside a foreach loop body. -/
def picNestedArrow : Picture :=
  { statements := [.foreach ["i"] [.num 1] none [arrowDrawStmt]] }

/-- Helper: conversion of the nested-arrow picture. -/
theorem convert_picNestedArrow :
    convert .default trigZero picNestedArrow = some [.pathEl [] false true] := by
  have hm : arrowMarkers [("arrow", PyVal.str "->")] = (false, true) := by
    simp +decide [arrowMarkers, getArrowSpec, strContains, containsChars, startsWithChars]
  have hcp : ∀ (ctx : EvaluationContext) (named : List (String × Point)),
      convert_path .default trigZero ctx named { segments := [] } = some [] := by
    intro ctx named
    rw [convert_path, path_walk]
    rfl
  have hdraw : ∀ st : ConvState,
      visit_stmt .default trigZero arrowDrawStmt st =
        some ([.pathEl [] false true], st) := by
    intro st
    rw [visit_stmt.eq_def]
    dsimp only [arrowDrawStmt]
    rw [hcp]
    dsimp only
    rw [hm]
  have hvb : ∀ st : ConvState,
      visit_stmts .default trigZero [arrowDrawStmt] st =
        some ([.pathEl [] false true], st) := by
    intro st
    rw [visit_stmts]
    rw [hdraw]
    dsimp only
    rw [visit_stmts]
    simp
  have hfe :
      foreach_iter .default trigZero ["i"] none [arrowDrawStmt] [PyVal.num 1]
        { context := .root, named := [] } =
        some ([.pathEl [] false true], { context := .root, named := [] }) := by
    rw [foreach_iter]
    rw [hvb]
    dsimp only
    rw [foreach_iter]
    simp
  have hstmt :
      visit_stmt .default trigZero (.foreach ["i"] [PyVal.num 1] none [arrowDrawStmt])
        { context := .root, named := [] } =
        some ([.pathEl [] false true], { context := .root, named := [] }) := by
    rw [visit_stmt.eq_def]
    dsimp only
    rw [hfe]
  have hvs :
      visit_stmts .default trigZero picNestedArrow.statements
        { context := .root, named := [] } =
        some ([.pathEl [] false true], { context := .root, named := [] }) := by
    dsimp only [picNestedArrow]
    rw [visit_stmts]
    rw [hstmt]
    dsimp only
    rw [visit_stmts]
    simp
  rw [convert, hvs]
  dsimp only
  simp +decide [check_for_arrows, picNestedArrow]

/-- Counterexample raw statement for C8: a picture whose only draw
statement carries the directional arrow option `->` but sits inside a
foreach loop.  The converted document carries a `marker-end`
attribute on the rendered path, yet contains no `defs` block (the
arrow scan `_check_for_arrows` only inspects top-level statements),
so "defs block present iff some statement specifies directional
arrow decorations" fails. -/
theorem c8_arrow_defs_counterexample :
    specifiesDirectionalArrowsList picNestedArrow.statements = true
    ∧ convert .default trigZero picNestedArrow = some [.pathEl [] false true]
    ∧ hasDefsBlock [.pathEl [] false true] = false := by
  refine ⟨?_, convert_picNestedArrow, rfl⟩
  simp +decide [picNestedArrow, arrowDrawStmt, specifiesDirectionalArrows,
    specifiesDirectionalArrowsList, getArrowSpec, strContains, containsChars,
    startsWithChars]

/-- C8 as amended: the converted document contains the arrow-marker
`defs` block iff some TOP-LEVEL statement of the picture is a draw
statement whose options contain the `arrow` key; and a draw statement
(wherever it occurs) renders with `marker-start` iff its arrow option
contains `<-` and `marker-end` iff it contains `->`. -/
theorem c8_arrow_defs_amended :
    (∀ (T : CoordinateTransformer) (trig : Trig) (pic : Picture) (doc : List Element),
        convert T trig pic = some doc →
        (hasDefsBlock doc = true ↔ check_for_arrows pic = true))
    ∧ (∀ (T : CoordinateTransformer) (trig : Trig) (command : String)
        (options : List (String × PyVal)) (path : Path) (st : ConvState)
        (cmds : List PathCmd),
        convert_path T trig st.context.rootAncestor st.named path = some cmds →
        visit_stmt T trig (.draw command options path) st =
          some ([.pathEl cmds (arrowMarkers options).1 (arrowMarkers options).2], st))
    ∧ (∀ (options : List (String × PyVal)) (s : String),
        getArrowSpec options = s → s ≠ "" →
        arrowMarkers options = (strContains s "<-", strContains s "->")) := by
  refine ⟨?_, ?_, ?_⟩
  · intro T trig pic doc h
    rw [convert] at h
    cases hv : visit_stmts T trig pic.statements { context := .root, named := [] } with
    | none =>
      rw [hv] at h
      exact absurd h (by simp)
    | some pr =>
      obtain ⟨els, stF⟩ := pr
      rw [hv] at h
      simp only [Option.some.injEq] at h
      rw [← h, hasDefsBlock_append]
      rw [visit_stmts_no_defs T trig pic.statements _ els stF hv]
      by_cases hc : check_for_arrows pic = true <;> simp [hc, hasDefsBlock]
  · intro T trig command options path st cmds hc
    rw [visit_stmt, hc]
  · intro options s hs hne
    rw [arrowMarkers]
    rw [hs]
    rw [if_pos hne]

/-- Witness for C8: the amended statements applied to the
nested-arrow picture, to a concrete top-level draw statement, and to
the arrow option string of the counterexample. -/
theorem c8_arrow_defs_amended_witness :
    (hasDefsBlock [Element.pathEl [] false true] = true ↔
      check_for_arrows picNestedArrow = true)
    ∧ visit_stmt .default trigZero arrowDrawStmt { context := .root, named := [] } =
      some ([.pathEl [] (arrowMarkers [("arrow", PyVal.str "->")]).1
        (arrowMarkers [("arrow", PyVal.str "->")]).2],
        { context := .root, named := [] })
    ∧ arrowMarkers [("arrow", PyVal.str "->")] =
      (strContains "->" "<-", strContains "->" "->") :=
  ⟨c8_arrow_defs_amended.1 .default trigZero picNestedArrow [.pathEl [] false true]
      convert_picNestedArrow,
   c8_arrow_defs_amended.2.1 .default trigZero "draw" [("arrow", PyVal.str "->")]
      { segments := [] } { context := .root, named := [] } []
      (by rw [convert_path, path_walk]; rfl),
   c8_arrow_defs_amended.2.2 [("arrow", PyVal.str "->")] "->" rfl (by decide)⟩

end TikzToSvg
